import Mathlib

/-!
KisaanAcademy frontend: a shallow embedding of the page handlers.

The development embeds the client-side handlers of the React pages
(`AgriTools.js`, `AgriBot.js`, `LearningHub.js`, `SustainableWiki.js`) as
pure functions over explicit view states.

ECMAScript numbers are modelled concretely as IEEE-754 binary64 values with
round-to-nearest, ties-to-even arithmetic, so that `parseFloat`, `*` and
`toFixed` evaluate on concrete inputs exactly as an engine evaluates them.
-/

namespace KisaanAcademy

/-! ## ECMAScript numbers -/

/-- An ECMAScript Number. A finite value is `(-1)^neg * m * 2^e` in the
canonical binary64 form: `m < 2^53`, `-1074 ≤ e ≤ 971`, and `2^52 ≤ m`
unless `e = -1074` (subnormals and the two zeros). -/
inductive JSNumber where
  | nan : JSNumber
  | inf (neg : Bool) : JSNumber
  | fin (neg : Bool) (m : Nat) (e : Int) : JSNumber
  deriving DecidableEq

/-- Round the fraction `num / den` to the nearest natural number, ties to even. -/
def roundNearestEven (num den : Nat) : Nat :=
  let n := num / den
  let r := num % den
  if 2 * r < den then n
  else if den < 2 * r then n + 1
  else if n % 2 = 0 then n else n + 1

/-- The successive squares `2^1, 2^2, 2^4, 2^8, ...` not exceeding `n`,
largest first, each paired with its exponent. -/
def log2Squares : Nat → Nat → Nat → Nat → List (Nat × Nat) → List (Nat × Nat)
  | 0, _, _, _, acc => acc
  | fuel + 1, n, p, w, acc =>
      if n < p then acc else log2Squares fuel n (p * p) (2 * w) ((p, w) :: acc)

/-- Binary descent through the squares: divide out every power that still
fits and add up the exponents. -/
def log2Descend : List (Nat × Nat) → Nat → Nat → Nat
  | [], _, acc => acc
  | (p, w) :: rest, n, acc =>
      if p ≤ n then log2Descend rest (n / p) (acc + w) else log2Descend rest n acc

/-- The position of the leading bit of `n`, that is `floor (log2 n)` (and
`0` for `n = 0`). -/
def natLog2 (n : Nat) : Nat := log2Descend (log2Squares n n 2 1 []) n 0

/-- Numerator and denominator of `p / (q * 2^e)`. -/
def scaleBy (p q : Nat) (e : Int) : Nat × Nat :=
  match e with
  | Int.ofNat k => (p, q * 2 ^ k)
  | Int.negSucc k => (p * 2 ^ (k + 1), q)

/-- The binary64 value nearest to `(-1)^neg * p / q` (ties to even), with
overflow to infinity and gradual underflow. -/
def JSNumber.ofRat (neg : Bool) (p q : Nat) : JSNumber :=
  if p = 0 ∨ q = 0 then JSNumber.fin neg 0 (-1074)
  else
    let l : Int := (natLog2 p : Int) - (natLog2 q : Int)
    let e0 : Int := max (l - 53) (-1074)
    let s0 := scaleBy p q e0
    let e1 : Int := if s0.1 / s0.2 < 2 ^ 53 then e0 else e0 + 1
    let s1 := scaleBy p q e1
    let n := roundNearestEven s1.1 s1.2
    let n2 : Nat := if n = 2 ^ 53 then 2 ^ 52 else n
    let e2 : Int := if n = 2 ^ 53 then e1 + 1 else e1
    if 971 < e2 then JSNumber.inf neg else JSNumber.fin neg n2 e2

/-- The binary64 value nearest to `(-1)^neg * m * 2^e`. -/
def JSNumber.ofScaled (neg : Bool) (m : Nat) (e : Int) : JSNumber :=
  match e with
  | Int.ofNat k => JSNumber.ofRat neg (m * 2 ^ k) 1
  | Int.negSucc k => JSNumber.ofRat neg m (2 ^ (k + 1))

/-- A decimal numeric literal of the source text: `lit p q` is the Number
value of the literal whose mathematical value is `p / q`. -/
def JSNumber.lit (p q : Nat) : JSNumber := JSNumber.ofRat false p q

/-- The `*` operator on Numbers (Number::multiply). -/
def JSNumber.mul : JSNumber → JSNumber → JSNumber
  | JSNumber.nan, _ => JSNumber.nan
  | _, JSNumber.nan => JSNumber.nan
  | JSNumber.inf s, JSNumber.inf t => JSNumber.inf (xor s t)
  | JSNumber.inf s, JSNumber.fin t m _ =>
      if m = 0 then JSNumber.nan else JSNumber.inf (xor s t)
  | JSNumber.fin s m _, JSNumber.inf t =>
      if m = 0 then JSNumber.nan else JSNumber.inf (xor s t)
  | JSNumber.fin s m e, JSNumber.fin t n f =>
      JSNumber.ofScaled (xor s t) (m * n) (e + f)

/-- The test `x <= 0` on a Number: false for NaN, true for both zeros. -/
def JSNumber.leZero : JSNumber → Bool
  | JSNumber.nan => false
  | JSNumber.inf s => s
  | JSNumber.fin s m _ => s || m == 0

/-- ToBoolean on a Number: NaN, `+0` and `-0` are falsy. -/
def JSNumber.truthy : JSNumber → Bool
  | JSNumber.nan => false
  | JSNumber.inf _ => true
  | JSNumber.fin _ m _ => m != 0

/-- The expression `x || 0` on a Number `x`. -/
def JSNumber.orZero (x : JSNumber) : JSNumber :=
  if x.truthy then x else JSNumber.lit 0 1

/-- The comparison `0 < x`: the Number is positive (possibly infinite). -/
def JSNumber.isPositive : JSNumber → Bool
  | JSNumber.nan => false
  | JSNumber.inf s => !s
  | JSNumber.fin s m _ => !s && m != 0

/-! ## Strings to numbers and back -/

/-- The code points ECMAScript treats as white space or line terminators
(`StrWhiteSpaceChar`); `String.prototype.trim` and `parseFloat` strip them. -/
def isJSWhiteSpace (c : Char) : Bool :=
  let n := c.toNat
  (9 ≤ n && n ≤ 13) || n == 32 || n == 160 || n == 5760 ||
    (8192 ≤ n && n ≤ 8202) || n == 8232 || n == 8233 || n == 8239 ||
    n == 8287 || n == 12288 || n == 65279

/-- A decimal digit `0`..`9`. -/
def isDecimalDigit (c : Char) : Bool := 48 ≤ c.toNat && c.toNat ≤ 57

/-- The mathematical value of a run of decimal digits. -/
def digitsValue (ds : List Char) : Nat :=
  ds.foldl (fun acc c => 10 * acc + (c.toNat - 48)) 0

/-- The binary64 value nearest to `(-1)^neg * mant * 10^ex`. -/
def JSNumber.ofDecimal (neg : Bool) (mant : Nat) (ex : Int) : JSNumber :=
  match ex with
  | Int.ofNat k => JSNumber.ofRat neg (mant * 10 ^ k) 1
  | Int.negSucc k => JSNumber.ofRat neg mant (10 ^ (k + 1))

/-- The value of an `ExponentPart` at the head of `cs`: `e` or `E`, an
optional sign and at least one digit. Anything else is not part of the
numeric prefix and counts as exponent `0`. -/
def parseExponent (cs : List Char) : Int :=
  match cs with
  | [] => 0
  | c :: rest =>
      if c = 'e' ∨ c = 'E' then
        let signed : Bool × List Char :=
          match rest with
          | '+' :: r => (false, r)
          | '-' :: r => (true, r)
          | r => (false, r)
        let ds := signed.2.takeWhile isDecimalDigit
        if ds = [] then 0
        else if signed.1 then -(digitsValue ds : Int) else (digitsValue ds : Int)
      else 0

/-- The longest prefix of `cs` that is a `StrUnsignedDecimalLiteral`, as a
Number; NaN when there is none. -/
def parseUnsignedDecimal (neg : Bool) (cs : List Char) : JSNumber :=
  if "Infinity".data.isPrefixOf cs then JSNumber.inf neg
  else
    let ip := cs.takeWhile isDecimalDigit
    let r1 := cs.dropWhile isDecimalDigit
    let fr : List Char × List Char :=
      match r1 with
      | '.' :: r => (r.takeWhile isDecimalDigit, r.dropWhile isDecimalDigit)
      | _ => ([], r1)
    if ip = [] ∧ fr.1 = [] then JSNumber.nan
    else JSNumber.ofDecimal neg (digitsValue (ip ++ fr.1)) (parseExponent fr.2 - fr.1.length)

/-- The global function `parseFloat` applied to a string. -/
def parseFloat (s : String) : JSNumber :=
  match s.data.dropWhile isJSWhiteSpace with
  | '+' :: r => parseUnsignedDecimal false r
  | '-' :: r => parseUnsignedDecimal true r
  | r => parseUnsignedDecimal false r

/-- The decimal digits of `n`, left-padded with zeros to at least `len` digits. -/
def paddedDigits (n len : Nat) : List Char :=
  let ds := Nat.toDigits 10 n
  List.replicate (len - ds.length) '0' ++ ds

/-- Candidate `(s, n)` of Number::toString with `k` digits when it reads
back as the finite positive value `m * 2^e` whose integer value is `x` and
that has `d` decimal digits: `some (distance, s, n)`. -/
def shortestCandidate (m : Nat) (e : Int) (x d k s : Nat) : Option (Nat × Nat × Nat) :=
  let sn : Nat × Nat := if s = 10 ^ k then (10 ^ (k - 1), d + 1) else (s, d)
  let v := sn.1 * 10 ^ (sn.2 - k)
  if JSNumber.ofRat false v 1 = JSNumber.fin false m e then
    some (if v ≤ x then x - v else v - x, sn.1, sn.2)
  else none

/-- Search `k = 1, 2, ...` for the least number of digits that reads back
as the value; among the two neighbours prefer the closer one. -/
def shortestDigits (m : Nat) (e : Int) (x d : Nat) : Nat → Nat → Nat × Nat × Nat
  | 0, k => (x, d, k)
  | fuel + 1, k =>
      let lo := x / 10 ^ (d - k)
      match shortestCandidate m e x d k lo, shortestCandidate m e x d k (lo + 1) with
      | some a, some b => if b.1 < a.1 then (b.2.1, b.2.2, k) else (a.2.1, a.2.2, k)
      | some a, none => (a.2.1, a.2.2, k)
      | none, some b => (b.2.1, b.2.2, k)
      | none, none => shortestDigits m e x d fuel (k + 1)

/-- Number::toString for a finite value `m * 2^e` that is at least `10^21`:
the shortest digit string that reads back as the value, in exponential form. -/
def largeToString (m : Nat) (e : Int) : String :=
  let x := m * 2 ^ e.toNat
  let d := (Nat.toDigits 10 x).length
  let r := shortestDigits m e x d d 1
  let ds := Nat.toDigits 10 r.1
  let frac := ds.drop 1
  String.mk (ds.take 1 ++ (if frac = [] then [] else '.' :: frac) ++
    ['e', '+'] ++ Nat.toDigits 10 (r.2.1 - 1))

/-- The method `Number.prototype.toFixed(f)` for `0 ≤ f ≤ 100`. -/
def JSNumber.toFixed (x : JSNumber) (f : Nat) : String :=
  match x with
  | JSNumber.nan => "NaN"
  | JSNumber.inf neg => if neg then "-Infinity" else "Infinity"
  | JSNumber.fin neg m e =>
      let sign : List Char := if neg ∧ m ≠ 0 then ['-'] else []
      let whole := scaleBy m 1 (-e)
      if 10 ^ 21 * whole.2 ≤ whole.1 then String.mk sign ++ largeToString m e
      else
        let sc := scaleBy (m * 10 ^ f) 1 (-e)
        let n := (2 * sc.1 + sc.2) / (2 * sc.2)
        let ds := paddedDigits n (f + 1)
        let a := ds.take (ds.length - f)
        let b := ds.drop (ds.length - f)
        String.mk (sign ++ a ++ (if f = 0 then [] else '.' :: b))

/-! ## Values read from lookup tables -/

/-- The values a property read on one of the lookup tables can produce: a
Number (own property), `undefined` (no such property), or a member inherited
from `Object.prototype` (a function, or the prototype object itself). -/
inductive JSValue where
  | undefined : JSValue
  | number (x : JSNumber) : JSValue
  | object : JSValue
  deriving DecidableEq

/-- ToBoolean. -/
def JSValue.truthy : JSValue → Bool
  | JSValue.undefined => false
  | JSValue.number x => x.truthy
  | JSValue.object => true

/-- The operator `a || b`. -/
def JSValue.or (a b : JSValue) : JSValue := if a.truthy then a else b

/-- ToNumber: `undefined` and the inherited members (whose string form is not
a numeric literal) convert to NaN. -/
def JSValue.toNumber : JSValue → JSNumber
  | JSValue.undefined => JSNumber.nan
  | JSValue.number x => x
  | JSValue.object => JSNumber.nan

/-- The property names every object literal inherits from `Object.prototype`. -/
def objectPrototypeKeys : List String :=
  ["constructor", "__defineGetter__", "__defineSetter__", "hasOwnProperty",
   "__lookupGetter__", "__lookupSetter__", "isPrototypeOf", "propertyIsEnumerable",
   "toString", "valueOf", "__proto__", "toLocaleString"]

/-- The property read `table[key]` on an object literal with numeric own
properties: own properties first, then the prototype chain. -/
def getProperty (table : List (String × JSNumber)) (key : String) : JSValue :=
  match table.lookup key with
  | some x => JSValue.number x
  | none => if key ∈ objectPrototypeKeys then JSValue.object else JSValue.undefined

/-- The operator `a || b` on strings: the empty string is falsy. -/
def strOr (a b : String) : String := if a = "" then b else a

/-! ## AgriTools -/

/-- The session language: the two options of the Navbar language select. -/
inductive Language where
  | ur : Language
  | en : Language
  deriving DecidableEq

/-- The form inputs of the calculators (`calcValues`). -/
structure CalcValues where
  area : String
  cropType : String
  irrigationType : String
  soilType : String
  energyUsage : String
  wasteType : String
  wasteAmount : String
  fertilizerType : String
  deriving DecidableEq

/-- The record handed to `setResult` by a calculation. -/
structure Calculation where
  label : String
  value : String
  unit : String
  details : String
  deriving DecidableEq

/-- The view state of the AgriTools page. -/
structure AgriToolsState where
  activeTool : String
  calcValues : CalcValues
  result : Option Calculation
  deriving DecidableEq

/-- The initial state set up by the `useState` calls. -/
def AgriToolsState.initial : AgriToolsState :=
  { activeTool := "water"
    calcValues :=
      { area := "", cropType := "", irrigationType := "", soilType := "",
        energyUsage := "", wasteType := "", wasteAmount := "", fertilizerType := "" }
    result := none }

/-- What a handler of the page does, in program order. -/
inductive ToolsEffect where
  | alert (message : String) : ToolsEffect
  | setResult (r : Option Calculation) : ToolsEffect
  | setActiveTool (id : String) : ToolsEffect
  | setCalcValues (v : CalcValues) : ToolsEffect
  deriving DecidableEq

/-- The state after one effect (an alert leaves the state alone). -/
def ToolsEffect.apply (s : AgriToolsState) : ToolsEffect → AgriToolsState
  | ToolsEffect.alert _ => s
  | ToolsEffect.setResult r => { s with result := r }
  | ToolsEffect.setActiveTool id => { s with activeTool := id }
  | ToolsEffect.setCalcValues v => { s with calcValues := v }

/-- The state after a handler ran: its effects applied in order. -/
def AgriToolsState.run (s : AgriToolsState) (effects : List ToolsEffect) : AgriToolsState :=
  effects.foldl ToolsEffect.apply s

/-- The labels of `translations[language]` that the calculators read. -/
structure ToolsLabels where
  waterRequired : String
  fertilizerRequired : String
  energySaved : String
  wasteConverted : String
  litersPerWeek : String
  kg : String
  kwh : String

/-- The table `translations`. -/
def translations : Language → ToolsLabels
  | Language.ur =>
      { waterRequired := "پانی کی ضرورت"
        fertilizerRequired := "کھاد کی ضرورت"
        energySaved := "توانائی کی بچت"
        wasteConverted := "فضلہ تبدیل شدہ"
        litersPerWeek := "لیٹر فی ہفتہ"
        kg := "کلوگرام"
        kwh := "کلو واٹ گھنٹے" }
  | Language.en =>
      { waterRequired := "Water Required"
        fertilizerRequired := "Fertilizer Required"
        energySaved := "Energy Saved"
        wasteConverted := "Waste Converted"
        litersPerWeek := "Liters per week"
        kg := "Kilograms"
        kwh := "KWh" }

/-- The conditional `language === 'ur' ? a : b`. -/
def Language.pick (language : Language) (a b : String) : String :=
  if language = Language.ur then a else b

/-- The object literal `cropMultiplier`. -/
def cropMultiplier : List (String × JSNumber) :=
  [("wheat", JSNumber.lit 8 10), ("rice", JSNumber.lit 15 10),
   ("cotton", JSNumber.lit 12 10), ("vegetables", JSNumber.lit 13 10)]

/-- The object literal `irrigationMultiplier`. -/
def irrigationMultiplier : List (String × JSNumber) :=
  [("flood", JSNumber.lit 15 10), ("sprinkler", JSNumber.lit 10 10),
   ("drip", JSNumber.lit 6 10)]

/-- The object literal `fertilizerPerAcre`. -/
def fertilizerPerAcre : List (String × JSNumber) :=
  [("wheat", JSNumber.lit 100 1), ("rice", JSNumber.lit 120 1),
   ("cotton", JSNumber.lit 80 1), ("vegetables", JSNumber.lit 150 1)]

/-- The alert of the area guard. -/
def invalidAreaAlert (language : Language) : String :=
  language.pick "براہ کرم صحیح رقبہ درج کریں" "Please enter a valid area"

/-- The alert of the energy-usage guard. -/
def energyUsageAlert (language : Language) : String :=
  language.pick "براہ کرم توانائی کا استعمال درج کریں" "Please enter energy usage"

/-- The alert of the waste-amount guard. -/
def wasteAmountAlert (language : Language) : String :=
  language.pick "براہ کرم فضلے کی مقدار درج کریں" "Please enter waste amount"

/-- The operand `(cropMultiplier[crop] || 1)` of the water product, converted
to a Number by `*`, where `crop = calcValues.cropType || 'wheat'`. -/
def cropFactor (cropType : String) : JSNumber :=
  let crop := strOr cropType "wheat"
  ((getProperty cropMultiplier crop).or (JSValue.number (JSNumber.lit 1 1))).toNumber

/-- The operand `(irrigationMultiplier[irrigation] || 1)` of the water
product, converted to a Number by `*`, where
`irrigation = calcValues.irrigationType || 'flood'`. -/
def irrigationFactor (irrigationType : String) : JSNumber :=
  let irrigation := strOr irrigationType "flood"
  ((getProperty irrigationMultiplier irrigation).or (JSValue.number (JSNumber.lit 1 1))).toNumber

/-- The body of `case 'water'`: the calculation record. -/
def waterCalculation (language : Language) (calcValues : CalcValues)
    (area : JSNumber) : Calculation :=
  let t := translations language
  let baseWaterPerAcre := JSNumber.lit 27000 1
  let waterRequired :=
    ((area.mul baseWaterPerAcre).mul (cropFactor calcValues.cropType)).mul
      (irrigationFactor calcValues.irrigationType)
  { label := t.waterRequired
    value := waterRequired.toFixed 2
    unit := t.litersPerWeek
    details :=
      language.pick
        ("فصل: " ++ strOr calcValues.cropType "عام" ++ ", اریگیشن: " ++
          strOr calcValues.irrigationType "عام")
        ("Crop: " ++ strOr calcValues.cropType "General" ++ ", Irrigation: " ++
          strOr calcValues.irrigationType "General") }

/-- The operand `(fertilizerPerAcre[cropFert] || 100)` of the fertilizer
product, converted to a Number by `*`. -/
def fertilizerFactor (cropFert : String) : JSNumber :=
  ((getProperty fertilizerPerAcre cropFert).or (JSValue.number (JSNumber.lit 100 1))).toNumber

/-- The body of `case 'fertilizer'`: the calculation record. -/
def fertilizerCalculation (language : Language) (calcValues : CalcValues)
    (area : JSNumber) : Calculation :=
  let t := translations language
  let fertilizerType := strOr calcValues.fertilizerType "npk"
  let cropFert := strOr calcValues.cropType "wheat"
  let fertilizerRequired := area.mul (fertilizerFactor cropFert)
  { label := t.fertilizerRequired
    value := fertilizerRequired.toFixed 2
    unit := t.kg
    details :=
      language.pick
        ("فصل: " ++ cropFert ++ ", کھاد کی قسم: " ++ fertilizerType)
        ("Crop: " ++ cropFert ++ ", Fertilizer Type: " ++ fertilizerType) }

/-- The body of `case 'energy'` after its guard: the calculation record. -/
def energyCalculation (language : Language) (currentUsage : JSNumber) : Calculation :=
  let t := translations language
  let energySaved := currentUsage.mul (JSNumber.lit 20 100)
  let costSaved := energySaved.mul (JSNumber.lit 15 1)
  { label := t.energySaved
    value := energySaved.toFixed 2
    unit := t.kwh
    details :=
      language.pick
        ("بچت شدہ رقم: " ++ costSaved.toFixed 2 ++ " روپے")
        ("Cost Saved: ₹" ++ costSaved.toFixed 2) }

/-- The body of `case 'waste'` after its guard: the calculation record. -/
def wasteCalculation (language : Language) (wasteAmount : JSNumber) : Calculation :=
  let t := translations language
  let compostProduced := wasteAmount.mul (JSNumber.lit 3 10)
  let biocharProduced := wasteAmount.mul (JSNumber.lit 2 10)
  { label := t.wasteConverted
    value := compostProduced.toFixed 2
    unit := t.kg ++ " (Compost)"
    details :=
      language.pick
        ("بائیوچار: " ++ biocharProduced.toFixed 2 ++ " کلوگرام")
        ("Biochar: " ++ biocharProduced.toFixed 2 ++ " kg") }

/-- The handler `handleCalculate` of `AgriTools.js`, as the list of effects
it performs on the state `s`. -/
def handleCalculate (language : Language) (s : AgriToolsState) : List ToolsEffect :=
  let area := (parseFloat s.calcValues.area).orZero
  if area.leZero then [ToolsEffect.alert (invalidAreaAlert language)]
  else if s.activeTool = "water" then
    [ToolsEffect.setResult (some (waterCalculation language s.calcValues area))]
  else if s.activeTool = "fertilizer" then
    [ToolsEffect.setResult (some (fertilizerCalculation language s.calcValues area))]
  else if s.activeTool = "energy" then
    let currentUsage := (parseFloat s.calcValues.energyUsage).orZero
    if currentUsage.leZero then [ToolsEffect.alert (energyUsageAlert language)]
    else [ToolsEffect.setResult (some (energyCalculation language currentUsage))]
  else if s.activeTool = "waste" then
    let wasteAmount := (parseFloat s.calcValues.wasteAmount).orZero
    if wasteAmount.leZero then [ToolsEffect.alert (wasteAmountAlert language)]
    else [ToolsEffect.setResult (some (wasteCalculation language wasteAmount))]
  else []

/-- The handler `handleReset`. -/
def handleReset : List ToolsEffect :=
  [ToolsEffect.setCalcValues AgriToolsState.initial.calcValues, ToolsEffect.setResult none]

/-- The `onClick` handler of the button of the tool `id`. -/
def selectTool (id : String) : List ToolsEffect :=
  [ToolsEffect.setActiveTool id, ToolsEffect.setResult none]

/-- The ids of the array `tools`, in order. -/
def toolIds : List String := ["water", "fertilizer", "energy", "waste"]

/-! ## The calculators as the specification words them -/

/-- The crop multiplier of the specification: wheat 0.8, rice 1.5, cotton 1.2,
vegetables 1.3, and 1 for any other crop type. -/
def specCropMultiplier (c : String) : JSNumber :=
  if c = "wheat" then JSNumber.lit 8 10
  else if c = "rice" then JSNumber.lit 15 10
  else if c = "cotton" then JSNumber.lit 12 10
  else if c = "vegetables" then JSNumber.lit 13 10
  else JSNumber.lit 1 1

/-- The irrigation multiplier of the specification: flood 1.5, sprinkler 1.0,
drip 0.6, and 1 for any other irrigation type. -/
def specIrrigationMultiplier (m : String) : JSNumber :=
  if m = "flood" then JSNumber.lit 15 10
  else if m = "sprinkler" then JSNumber.lit 1 1
  else if m = "drip" then JSNumber.lit 6 10
  else JSNumber.lit 1 1

/-- The fertilizer rate of the specification: wheat 100, rice 120, cotton 80,
vegetables 150, and 100 for any other or empty crop type. -/
def specFertilizerPerAcre (c : String) : JSNumber :=
  if c = "wheat" then JSNumber.lit 100 1
  else if c = "rice" then JSNumber.lit 120 1
  else if c = "cotton" then JSNumber.lit 80 1
  else if c = "vegetables" then JSNumber.lit 150 1
  else JSNumber.lit 100 1

/-- The water value of the specification:
`area × 27000 × cropMultiplier × irrigationMultiplier`, to two decimals. -/
def specWaterValue (area : JSNumber) (c m : String) : String :=
  (((area.mul (JSNumber.lit 27000 1)).mul (specCropMultiplier c)).mul
    (specIrrigationMultiplier m)).toFixed 2

/-- The values of the options of the crop select of the water and fertilizer
forms, the placeholder option (value `""`) apart. -/
def cropTypeOptions : List String := ["wheat", "rice", "cotton", "vegetables"]

/-- The values of the options of the irrigation select of the water form, the
placeholder option (value `""`) apart. -/
def irrigationTypeOptions : List String := ["flood", "sprinkler", "drip"]

/-- A page state with the given tool and inputs, everything else as initially. -/
def formState (tool area crop irrigation energyUsage wasteAmount : String) : AgriToolsState :=
  { activeTool := tool
    calcValues :=
      { area := area, cropType := crop, irrigationType := irrigation, soilType := "",
        energyUsage := energyUsage, wasteType := "", wasteAmount := wasteAmount,
        fertilizerType := "" }
    result := none }

/-- The second required input of the energy and waste tools. -/
def secondField (s : AgriToolsState) : String :=
  if s.activeTool = "energy" then s.calcValues.energyUsage else s.calcValues.wasteAmount

/-- The alert naming the second required input of the energy and waste tools. -/
def secondFieldAlert (language : Language) (s : AgriToolsState) : String :=
  if s.activeTool = "energy" then energyUsageAlert language else wasteAmountAlert language

/-! ## Promises, response bodies and handler runs -/

/-- A value that is thrown or that a promise is rejected with: an Error
object (axios rejects with an `AxiosError`, a failed property read or call
throws a `TypeError`). -/
structure JSError where
  name : String
  message : String
  deriving DecidableEq

/-- How a promise settles. -/
inductive Settled (α : Type) where
  | resolved (value : α) : Settled α
  | rejected (reason : JSError) : Settled α

/-- The promise `Promise.all([a, b])`: fulfilled with both values when both
are fulfilled, otherwise rejected with the reason of the promise that rejected
first; `secondFirst` says that `b` rejected before `a` when both reject. -/
def promiseAll {α β : Type} (a : Settled α) (b : Settled β) (secondFirst : Bool) :
    Settled (α × β) :=
  match a, b with
  | Settled.resolved x, Settled.resolved y => Settled.resolved (x, y)
  | Settled.rejected e, Settled.resolved _ => Settled.rejected e
  | Settled.resolved _, Settled.rejected e => Settled.rejected e
  | Settled.rejected e₁, Settled.rejected e₂ =>
      Settled.rejected (if secondFirst then e₂ else e₁)

/-- The UTF-16 code units of a string, the elements a JavaScript string is
made of: one unit for a code point of the basic plane, a surrogate pair for
any other. -/
def utf16Units (s : String) : List Nat :=
  s.data.flatMap fun c =>
    if c.toNat < 0x10000 then [c.toNat]
    else [0xD800 + (c.toNat - 0x10000) / 0x400, 0xDC00 + (c.toNat - 0x10000) % 0x400]

/-- A decoded response body `response.data`, as far as the pages look into
it: an array of entities, a string (given by its UTF-16 code units), `null` or
`undefined`, a number or boolean (with its truthiness), or a plain object
given by the value of its `data` property (`nullish` when it has none). -/
inductive JSData (α : Type) where
  | array (items : List α) : JSData α
  | text (units : List Nat) : JSData α
  | nullish : JSData α
  | scalar (truthy : Bool) : JSData α
  | object (data : JSData α) : JSData α
  deriving DecidableEq

/-- ToBoolean on a response body. -/
def JSData.truthy {α : Type} : JSData α → Bool
  | JSData.array _ => true
  | JSData.text units => !units.isEmpty
  | JSData.nullish => false
  | JSData.scalar b => b
  | JSData.object _ => true

/-- A string body. -/
def JSData.ofString {α : Type} (s : String) : JSData α := JSData.text (utf16Units s)

/-- The call `v.slice(0, k)`: arrays and strings have the method (a string
gives its first `k` code units), reading it off `null` or `undefined` throws,
and on anything else it is not a function. -/
def JSData.slice {α : Type} (k : Nat) : JSData α → Except JSError (JSData α)
  | JSData.array items => Except.ok (JSData.array (items.take k))
  | JSData.text units => Except.ok (JSData.text (units.take k))
  | JSData.nullish =>
      Except.error { name := "TypeError", message := "Cannot read properties of undefined" }
  | JSData.scalar _ =>
      Except.error { name := "TypeError", message := "slice is not a function" }
  | JSData.object _ =>
      Except.error { name := "TypeError", message := "slice is not a function" }

/-- What running a block of a handler amounts to: the calls it made, in
program order, and the exception it ended with, if any. -/
structure Run (ε : Type) where
  effects : List ε
  thrown : Option JSError

/-- The statement `try body catch (error) handler finally finalizer`. -/
def Run.tryCatchFinally {ε : Type} (body : Run ε) (handler : JSError → Run ε)
    (finalizer : Run ε) : Run ε :=
  let caught : Run ε :=
    match body.thrown with
    | none => body
    | some e => { effects := body.effects ++ (handler e).effects, thrown := (handler e).thrown }
  { effects := caught.effects ++ finalizer.effects
    thrown :=
      match finalizer.thrown with
      | some e => some e
      | none => caught.thrown }

/-- The statement `try body catch (error) handler`. -/
def Run.tryCatch {ε : Type} (body : Run ε) (handler : JSError → Run ε) : Run ε :=
  Run.tryCatchFinally body handler { effects := [], thrown := none }

/-! ## LearningHub and SustainableWiki: deduplication by id -/

/-- `Array.prototype.findIndex` from position `i` on: the index of the first
element satisfying `p`, or `-1`. -/
def findIndexFrom {α : Type} (p : α → Bool) : Nat → List α → Int
  | _, [] => -1
  | i, x :: xs => if p x then (i : Int) else findIndexFrom p (i + 1) xs

/-- `Array.prototype.findIndex`. -/
def findIndex {α : Type} (p : α → Bool) (xs : List α) : Int := findIndexFrom p 0 xs

/-- `Array.prototype.filter` from position `i` on, the callback seeing the
element and its index. -/
def filterFrom {α : Type} (p : α → Nat → Bool) : Nat → List α → List α
  | _, [] => []
  | i, x :: xs => if p x i then x :: filterFrom p (i + 1) xs else filterFrom p (i + 1) xs

/-- `Array.prototype.filter` with a callback `(element, index, self)`. -/
def filterWithIndex {α : Type} (self : List α) (p : α → Nat → List α → Bool) : List α :=
  filterFrom (fun x i => p x i self) 0 self

/-- The idiom shared by both pages:
`xs.filter((x, index, self) => index === self.findIndex((y) => y.id === x.id))`.
The type `ι` holds the identifiers as `===` tells them apart. -/
def dedupeById {α ι : Type} [DecidableEq ι] (getId : α → ι) (xs : List α) : List α :=
  filterWithIndex xs fun x index self =>
    decide ((index : Int) = findIndex (fun y => decide (getId y = getId x)) self)

/-- A course as the LearningHub page reads it. -/
structure Course (ι : Type) where
  id : ι
  title : String
  description : String
  category : String
  content : String
  video_url : Option String

/-- A wiki article as the SustainableWiki page reads it. -/
structure WikiArticle (ι : Type) where
  id : ι
  title : String
  content : String
  category : String
  tags : Option String
  wiki_url : Option String

/-- The list `uniqueCourses` of `LearningHub.js`. -/
def uniqueCourses {ι : Type} [DecidableEq ι] (courses : List (Course ι)) : List (Course ι) :=
  dedupeById Course.id courses

/-- The list `filteredCourses` of `LearningHub.js`. -/
def filteredCourses {ι : Type} [DecidableEq ι] (filter : String)
    (courses : List (Course ι)) : List (Course ι) :=
  if filter = "all" then uniqueCourses courses
  else (uniqueCourses courses).filter fun course => decide (course.category = filter)

/-- The list `uniqueArticles` of `SustainableWiki.js`. -/
def uniqueArticles {ι : Type} [DecidableEq ι] (articles : List (WikiArticle ι)) :
    List (WikiArticle ι) :=
  dedupeById WikiArticle.id articles

/-- `String.prototype.includes`: `t` occurs in `s` as a contiguous substring. -/
def includes (s t : String) : Bool := s.data.tails.any fun u => t.data.isPrefixOf u

/-- The list `filteredArticles` of `SustainableWiki.js`. The case mapping
`String.prototype.toLowerCase` of the engine is a parameter. -/
def filteredArticles {ι : Type} [DecidableEq ι] (toLowerCase : String → String)
    (searchTerm : String) (articles : List (WikiArticle ι)) : List (WikiArticle ι) :=
  if searchTerm ≠ "" then
    (uniqueArticles articles).filter fun article =>
      includes (toLowerCase article.title) (toLowerCase searchTerm) ||
        includes (toLowerCase article.content) (toLowerCase searchTerm)
  else uniqueArticles articles

/-- Deduplication as the specification words it: walk the list once and keep
an entry exactly when its id has not been seen before. -/
def firstOccurrences {α ι : Type} [DecidableEq ι] (getId : α → ι) :
    List ι → List α → List α
  | _, [] => []
  | seen, x :: xs =>
      if getId x ∈ seen then firstOccurrences getId seen xs
      else x :: firstOccurrences getId (seen ++ [getId x]) xs

/-! ## AgriBot -/

/-- `String.prototype.trim`: strip white space and line terminators from both ends. -/
def jsTrim (s : String) : String :=
  String.mk ((s.data.dropWhile isJSWhiteSpace).reverse.dropWhile isJSWhiteSpace).reverse

/-- An entry of the message log. -/
structure ChatMessage where
  type : String
  text : String
  timestamp : String
  deriving DecidableEq

/-- A weather alert as the sidebar reads it. -/
structure WeatherAlert where
  id : Int
  region : String
  message : String
  severity : String
  deriving DecidableEq

/-- A pest alert as the sidebar reads it. -/
structure PestAlert where
  id : Int
  pest_name : String
  crop_affected : String
  prevention : String
  deriving DecidableEq

/-- The state object `alerts`; each field holds what `slice` returned. -/
structure Alerts where
  weather : JSData WeatherAlert
  pests : JSData PestAlert
  deriving DecidableEq

/-- The view state of the AgriBot page. -/
structure AgriBotState where
  messages : List ChatMessage
  input : String
  loading : Bool
  alerts : Alerts
  deriving DecidableEq

/-- What `handleSend` does before it suspends on the chat request, in program
order. `sendChatMessage` is the call `apiService.sendChatMessage(message,
userId, language)` with `userId` null when `none`. -/
inductive BotEffect where
  | preventDefault : BotEffect
  | appendMessage (m : ChatMessage) : BotEffect
  | setInput (value : String) : BotEffect
  | setLoading (value : Bool) : BotEffect
  | sendChatMessage (message : String) (userId : Option String) (language : Language) : BotEffect
  | setMessages (ms : List ChatMessage) : BotEffect
  | setAlerts (value : Alerts) : BotEffect
  | getWeatherAlerts (region : Option String) (language : Language) : BotEffect
  | getPestAlerts (region : Option String) (language : Language) : BotEffect
  | consoleError (label : String) (error : JSError) : BotEffect
  deriving DecidableEq

/-- The state after one effect; the event call, the requests and the console
leave the view state alone. `appendMessage m` is the functional update
`setMessages(prev => [...prev, m])`, `setMessages ms` the plain
`setMessages(ms)`. -/
def BotEffect.apply (s : AgriBotState) : BotEffect → AgriBotState
  | BotEffect.preventDefault => s
  | BotEffect.appendMessage m => { s with messages := s.messages ++ [m] }
  | BotEffect.setInput value => { s with input := value }
  | BotEffect.setLoading value => { s with loading := value }
  | BotEffect.sendChatMessage _ _ _ => s
  | BotEffect.setMessages ms => { s with messages := ms }
  | BotEffect.setAlerts value => { s with alerts := value }
  | BotEffect.getWeatherAlerts _ _ => s
  | BotEffect.getPestAlerts _ _ => s
  | BotEffect.consoleError _ _ => s

/-- The state after a handler ran: its effects applied in order. -/
def AgriBotState.run (s : AgriBotState) (effects : List BotEffect) : AgriBotState :=
  effects.foldl BotEffect.apply s

/-- The handler `handleSend` of `AgriBot.js` up to its `await`, as the list of
effects it performs on the state `s`; `now` is the value of
`new Date().toISOString()`. -/
def handleSend (language : Language) (now : String) (s : AgriBotState) : List BotEffect :=
  BotEffect.preventDefault ::
    if jsTrim s.input = "" ∨ s.loading = true then []
    else
      [ BotEffect.appendMessage { type := "user", text := s.input, timestamp := now },
        BotEffect.setInput "",
        BotEffect.setLoading true,
        BotEffect.sendChatMessage s.input none language ]

/-- The state of the page when it mounts (the `useState` initial values). -/
def AgriBotState.initial : AgriBotState :=
  { messages := [], input := "", loading := false,
    alerts := { weather := JSData.array [], pests := JSData.array [] } }

/-- The welcome sentence of the bot. -/
def welcomeText (language : Language) : String :=
  language.pick
    "السلام علیکم! میں آپ کا اگری بوٹ ہوں۔ میں آپ کی فصلوں، قیمتوں، موسم، اور کھیتی باڑی کے بارے میں کوئی بھی سوال پوچھ سکتے ہیں۔"
    "Hello! I am your Agri-Bot. You can ask me any questions about crops, prices, weather, and farming."

/-- The fallback sentence of the `catch` block of `handleSend`. -/
def fallbackText (language : Language) : String :=
  language.pick
    "معافی، میں اس وقت آپ کے سوال کا جواب نہیں دے سکتا۔ براہ کرم دوبارہ کوشش کریں۔"
    "Sorry, I cannot answer your question right now. Please try again."

/-- The effect `useEffect(..., [language])` of `AgriBot.js`, which runs when
the page mounts and after every change of the language: it starts
`fetchAlerts` (the two requests) and sets the message log to the welcome
message. -/
def languageEffect (language : Language) (now : String) : List BotEffect :=
  [ BotEffect.getWeatherAlerts none language,
    BotEffect.getPestAlerts none language,
    BotEffect.setMessages [{ type := "bot", text := welcomeText language, timestamp := now }] ]

/-- The body of a chat response: an object with an `answer`. -/
structure ChatPayload where
  answer : String
  deriving DecidableEq

/-- The rest of `handleSend` of `AgriBot.js`, run when the chat request
settles. A fulfilled request carries `response.data`, `none` standing for a
`null` or `undefined` body, on which reading `.answer` throws. -/
def handleSendSettled (language : Language) (now : String)
    (outcome : Settled (Option ChatPayload)) : Run BotEffect :=
  Run.tryCatchFinally
    (match outcome with
      | Settled.rejected error => { effects := [], thrown := some error }
      | Settled.resolved none =>
          { effects := []
            thrown := some { name := "TypeError", message := "Cannot read properties of null" } }
      | Settled.resolved (some data) =>
          { effects :=
              [BotEffect.appendMessage { type := "bot", text := data.answer, timestamp := now }]
            thrown := none })
    (fun error =>
      { effects :=
          [ BotEffect.consoleError "Error sending message:" error,
            BotEffect.appendMessage
              { type := "bot", text := fallbackText language, timestamp := now } ]
        thrown := none })
    { effects := [BotEffect.setLoading false], thrown := none }

/-- The rest of `fetchAlerts` of `AgriBot.js`, run when `Promise.all` of the
two alert requests settles with the two bodies `weather.data` and
`pests.data`. -/
def AgriBot.fetchAlerts (outcome : Settled (JSData WeatherAlert × JSData PestAlert)) :
    Run BotEffect :=
  Run.tryCatch
    (match outcome with
      | Settled.rejected error => { effects := [], thrown := some error }
      | Settled.resolved (weather, pests) =>
          match weather.slice 5 with
          | Except.error e => { effects := [], thrown := some e }
          | Except.ok w =>
              match pests.slice 5 with
              | Except.error e => { effects := [], thrown := some e }
              | Except.ok p =>
                  { effects := [BotEffect.setAlerts { weather := w, pests := p }]
                    thrown := none })
    (fun error =>
      { effects := [BotEffect.consoleError "Error fetching alerts:" error], thrown := none })

/-! ## The pages that load a list -/

/-- The view state of the LearningHub page. -/
structure LearningHubState (ι : Type) where
  courses : JSData (Course ι)
  selectedCourse : Option (Course ι)
  loading : Bool
  filter : String

/-- The state of the LearningHub page when it mounts. -/
def LearningHubState.initial {ι : Type} : LearningHubState ι :=
  { courses := JSData.array [], selectedCourse := none, loading := true, filter := "all" }

/-- The calls `fetchCourses` makes. -/
inductive HubEffect (ι : Type) where
  | setCourses (value : JSData (Course ι)) : HubEffect ι
  | setLoading (value : Bool) : HubEffect ι
  | consoleError (label : String) (error : JSError) : HubEffect ι

/-- The state after one call of `fetchCourses`. -/
def HubEffect.apply {ι : Type} (s : LearningHubState ι) : HubEffect ι → LearningHubState ι
  | HubEffect.setCourses value => { s with courses := value }
  | HubEffect.setLoading value => { s with loading := value }
  | HubEffect.consoleError _ _ => s

/-- The state after a handler ran: its effects applied in order. -/
def LearningHubState.run {ι : Type} (s : LearningHubState ι) (effects : List (HubEffect ι)) :
    LearningHubState ι :=
  effects.foldl HubEffect.apply s

/-- The rest of `fetchCourses` of `LearningHub.js`, run when the request
settles; a fulfilled request carries `response.data`. -/
def fetchCourses {ι : Type} (outcome : Settled (JSData (Course ι))) : Run (HubEffect ι) :=
  Run.tryCatchFinally
    (match outcome with
      | Settled.rejected error => { effects := [], thrown := some error }
      | Settled.resolved data => { effects := [HubEffect.setCourses data], thrown := none })
    (fun error =>
      { effects := [HubEffect.consoleError "Error fetching courses:" error], thrown := none })
    { effects := [HubEffect.setLoading false], thrown := none }

/-- The view state of the SustainableWiki page. -/
structure WikiState (ι : Type) where
  articles : JSData (WikiArticle ι)
  selectedArticle : Option (WikiArticle ι)
  searchTerm : String
  filterCategory : String
  loading : Bool

/-- The state of the SustainableWiki page when it mounts. -/
def WikiState.initial {ι : Type} : WikiState ι :=
  { articles := JSData.array [], selectedArticle := none, searchTerm := "",
    filterCategory := "all", loading := true }

/-- The calls `fetchArticles` makes. -/
inductive WikiEffect (ι : Type) where
  | setArticles (value : JSData (WikiArticle ι)) : WikiEffect ι
  | setLoading (value : Bool) : WikiEffect ι
  | consoleError (label : String) (error : JSError) : WikiEffect ι

/-- The state after one call of `fetchArticles`. -/
def WikiEffect.apply {ι : Type} (s : WikiState ι) : WikiEffect ι → WikiState ι
  | WikiEffect.setArticles value => { s with articles := value }
  | WikiEffect.setLoading value => { s with loading := value }
  | WikiEffect.consoleError _ _ => s

/-- The state after a handler ran: its effects applied in order. -/
def WikiState.run {ι : Type} (s : WikiState ι) (effects : List (WikiEffect ι)) : WikiState ι :=
  effects.foldl WikiEffect.apply s

/-- The rest of `fetchArticles` of `SustainableWiki.js`, run when the request
settles; a fulfilled request carries `response.data`. -/
def fetchArticles {ι : Type} (outcome : Settled (JSData (WikiArticle ι))) :
    Run (WikiEffect ι) :=
  Run.tryCatchFinally
    (match outcome with
      | Settled.rejected error => { effects := [], thrown := some error }
      | Settled.resolved data => { effects := [WikiEffect.setArticles data], thrown := none })
    (fun error =>
      { effects := [WikiEffect.consoleError "Error fetching articles:" error], thrown := none })
    { effects := [WikiEffect.setLoading false], thrown := none }

/-- A market price as the MarketIntelligence page reads it. -/
structure MarketPrice where
  id : Int
  crop_name : String
  region : String
  price_per_kg : JSNumber
  mandi_name : Option String
  recorded_at : String
  deriving DecidableEq

/-- The view state of the MarketIntelligence page. -/
structure MarketState where
  prices : JSData MarketPrice
  filteredPrices : JSData MarketPrice
  loading : Bool
  searchTerm : String
  filterRegion : String
  deriving DecidableEq

/-- The state of the MarketIntelligence page when it mounts. -/
def MarketState.initial : MarketState :=
  { prices := JSData.array [], filteredPrices := JSData.array [], loading := true,
    searchTerm := "", filterRegion := "" }

/-- The calls `fetchPrices` makes. -/
inductive MarketEffect where
  | setPrices (value : JSData MarketPrice) : MarketEffect
  | setFilteredPrices (value : JSData MarketPrice) : MarketEffect
  | setLoading (value : Bool) : MarketEffect
  | consoleError (label : String) (error : JSError) : MarketEffect

/-- The state after one call of `fetchPrices`. -/
def MarketEffect.apply (s : MarketState) : MarketEffect → MarketState
  | MarketEffect.setPrices value => { s with prices := value }
  | MarketEffect.setFilteredPrices value => { s with filteredPrices := value }
  | MarketEffect.setLoading value => { s with loading := value }
  | MarketEffect.consoleError _ _ => s

/-- The state after a handler ran: its effects applied in order. -/
def MarketState.run (s : MarketState) (effects : List MarketEffect) : MarketState :=
  effects.foldl MarketEffect.apply s

/-- The rest of `fetchPrices` of `MarketIntelligence.js`, run when the request
settles; a fulfilled request carries `response.data`. -/
def fetchPrices (outcome : Settled (JSData MarketPrice)) : Run MarketEffect :=
  Run.tryCatchFinally
    (match outcome with
      | Settled.rejected error => { effects := [], thrown := some error }
      | Settled.resolved data =>
          { effects := [MarketEffect.setPrices data, MarketEffect.setFilteredPrices data]
            thrown := none })
    (fun error =>
      { effects := [MarketEffect.consoleError "Error fetching prices:" error], thrown := none })
    { effects := [MarketEffect.setLoading false], thrown := none }

/-- The view state of the Home page. -/
structure HomeState where
  weatherAlerts : JSData WeatherAlert
  pestAlerts : JSData PestAlert
  loading : Bool
  deriving DecidableEq

/-- The state of the Home page when it mounts. -/
def HomeState.initial : HomeState :=
  { weatherAlerts := JSData.array [], pestAlerts := JSData.array [], loading := true }

/-- The calls `fetchAlerts` of the Home page makes. -/
inductive HomeEffect where
  | setWeatherAlerts (value : JSData WeatherAlert) : HomeEffect
  | setPestAlerts (value : JSData PestAlert) : HomeEffect
  | setLoading (value : Bool) : HomeEffect
  | consoleLog (label : String) : HomeEffect
  | consoleError (label : String) (error : JSError) : HomeEffect

/-- The state after one call of `fetchAlerts`. -/
def HomeEffect.apply (s : HomeState) : HomeEffect → HomeState
  | HomeEffect.setWeatherAlerts value => { s with weatherAlerts := value }
  | HomeEffect.setPestAlerts value => { s with pestAlerts := value }
  | HomeEffect.setLoading value => { s with loading := value }
  | HomeEffect.consoleLog _ => s
  | HomeEffect.consoleError _ _ => s

/-- The state after a handler ran: its effects applied in order. -/
def HomeState.run (s : HomeState) (effects : List HomeEffect) : HomeState :=
  effects.foldl HomeEffect.apply s

/-- The expression
`Array.isArray(r.data) ? r.data : (r.data?.data || [])` of `Home.js`. -/
def alertsData {α : Type} (data : JSData α) : JSData α :=
  match data with
  | JSData.array items => JSData.array items
  | JSData.nullish => JSData.array []
  | JSData.text _ => JSData.array []
  | JSData.scalar _ => JSData.array []
  | JSData.object inner => if inner.truthy then inner else JSData.array []

/-- The `try` block of `fetchAlerts` of `Home.js` after the `await`. -/
def Home.fetchAlertsBody (weather : JSData WeatherAlert) (pests : JSData PestAlert) :
    Run HomeEffect :=
  let weatherData := alertsData weather
  let pestsData := alertsData pests
  let logs :=
    [HomeEffect.consoleLog "Weather alerts received:", HomeEffect.consoleLog "Pest alerts received:"]
  match weatherData.slice 3 with
  | Except.error e => { effects := logs, thrown := some e }
  | Except.ok w =>
      match pestsData.slice 3 with
      | Except.error e => { effects := logs ++ [HomeEffect.setWeatherAlerts w], thrown := some e }
      | Except.ok p =>
          { effects := logs ++ [HomeEffect.setWeatherAlerts w, HomeEffect.setPestAlerts p]
            thrown := none }

/-- The rest of `fetchAlerts` of `Home.js`, run when `Promise.all` of the two
alert requests settles with the two bodies. -/
def Home.fetchAlerts (outcome : Settled (JSData WeatherAlert × JSData PestAlert)) :
    Run HomeEffect :=
  Run.tryCatchFinally
    (match outcome with
      | Settled.rejected error => { effects := [], thrown := some error }
      | Settled.resolved (weather, pests) => Home.fetchAlertsBody weather pests)
    (fun error =>
      { effects :=
          [ HomeEffect.consoleError "Error fetching alerts:" error,
            HomeEffect.consoleError "Error details:" error,
            HomeEffect.setWeatherAlerts (JSData.array []),
            HomeEffect.setPestAlerts (JSData.array []) ]
        thrown := none })
    { effects := [HomeEffect.setLoading false], thrown := none }

/-! ## The API client (`services/api.js`) -/

/-- An argument of an API function: left out (`undefined`), `null`, or a string. -/
inductive JSArg where
  | undefined : JSArg
  | null : JSArg
  | string (s : String) : JSArg
  deriving DecidableEq

/-- ToBoolean on an argument: only a non-empty string is truthy. -/
def JSArg.truthy : JSArg → Bool
  | JSArg.string s => s != ""
  | _ => false

/-- A default parameter value `x = d`: it replaces `undefined` only. -/
def JSArg.orDefault (a d : JSArg) : JSArg :=
  match a with
  | JSArg.undefined => d
  | _ => a

/-- ToString on an argument, as a template literal or `URLSearchParams.append`
applies it. -/
def JSArg.toString : JSArg → String
  | JSArg.undefined => "undefined"
  | JSArg.null => "null"
  | JSArg.string s => s

/-- The JSON body of the chat request. -/
structure ChatBody where
  user_id : JSArg
  question : JSArg
  language : JSArg
  deriving DecidableEq

/-- A request handed to axios: the method, the URL relative to the base URL,
and the body of a POST. -/
structure Request where
  method : String
  url : String
  body : Option ChatBody
  deriving DecidableEq

/-- The call `api.get(url)`. -/
def apiGet (url : String) : Request := { method := "GET", url := url, body := none }

/-- The UTF-8 bytes of a code point. -/
def utf8Bytes (c : Char) : List Nat :=
  let n := c.toNat
  if n < 128 then [n]
  else if n < 2048 then [192 + n / 64, 128 + n % 64]
  else if n < 65536 then [224 + n / 4096, 128 + n / 64 % 64, 128 + n % 64]
  else [240 + n / 262144, 128 + n / 4096 % 64, 128 + n / 64 % 64, 128 + n % 64]

/-- The upper-case hexadecimal digit of `d < 16`. -/
def hexDigit (d : Nat) : Char := if d < 10 then Char.ofNat (48 + d) else Char.ofNat (55 + d)

/-- A byte the form-urlencoded serializer leaves as it is: an ASCII letter or
digit, or one of `*`, `-`, `.`, `_`. -/
def isFormUnreserved (b : Nat) : Bool :=
  (48 ≤ b && b ≤ 57) || (65 ≤ b && b ≤ 90) || (97 ≤ b && b ≤ 122) ||
    b == 42 || b == 45 || b == 46 || b == 95

/-- The form-urlencoded form of one byte: a space becomes `+`, an unreserved
byte stays, any other byte is percent-encoded. -/
def formEncodeByte (b : Nat) : List Char :=
  if b = 32 then ['+']
  else if isFormUnreserved b then [Char.ofNat b]
  else ['%', hexDigit (b / 16 % 16), hexDigit (b % 16)]

/-- The form-urlencoded form of a string. -/
def formEncode (s : String) : List Char :=
  s.data.flatMap fun c => (utf8Bytes c).flatMap formEncodeByte

/-- The pieces joined with `sep` between them. -/
def joinWith (sep : Char) : List (List Char) → List Char
  | [] => []
  | [a] => a
  | a :: b :: rest => a ++ sep :: joinWith sep (b :: rest)

/-- The method `URLSearchParams.prototype.toString` on the list of appended
pairs: `name=value` pairs, form-urlencoded, joined by `&`. -/
def urlSearchParamsToString (params : List (String × String)) : String :=
  String.mk (joinWith '&' (params.map fun p => formEncode p.1 ++ '=' :: formEncode p.2))

/-- The statement `if (arg) params.append(name, arg)` on a fresh or growing
`URLSearchParams`. -/
def appendIfTruthy (params : List (String × String)) (name : String) (arg : JSArg) :
    List (String × String) :=
  if arg.truthy then params ++ [(name, arg.toString)] else params

namespace apiService

/-- The function `getCourses(language = 'ur')`. -/
def getCourses (language : JSArg) : Request :=
  let language := language.orDefault (JSArg.string "ur")
  apiGet ("/api/courses?language=" ++ language.toString)

/-- The function `getMarketPrices(cropName = null, region = null)`. -/
def getMarketPrices (cropName region : JSArg) : Request :=
  let cropName := cropName.orDefault JSArg.null
  let region := region.orDefault JSArg.null
  let params := appendIfTruthy (appendIfTruthy [] "crop_name" cropName) "region" region
  apiGet ("/api/market-prices?" ++ urlSearchParamsToString params)

/-- The function `getPriceForecast(cropName, region = null)`. -/
def getPriceForecast (cropName region : JSArg) : Request :=
  let region := region.orDefault JSArg.null
  let params := if region.truthy then "?region=" ++ region.toString else ""
  apiGet ("/api/market-prices/forecast/" ++ cropName.toString ++ params)

/-- The function `getWeatherAlerts(region = null, language = 'ur')`. -/
def getWeatherAlerts (region language : JSArg) : Request :=
  let region := region.orDefault JSArg.null
  let language := language.orDefault (JSArg.string "ur")
  let params := appendIfTruthy [] "region" region ++ [("language", language.toString)]
  apiGet ("/api/weather-alerts?" ++ urlSearchParamsToString params)

/-- The function `getPestAlerts(region = null, language = 'ur')`. -/
def getPestAlerts (region language : JSArg) : Request :=
  let region := region.orDefault JSArg.null
  let language := language.orDefault (JSArg.string "ur")
  let params := appendIfTruthy [] "region" region ++ [("language", language.toString)]
  apiGet ("/api/pest-alerts?" ++ urlSearchParamsToString params)

/-- The function `getWikiArticles(category = null, language = 'ur')`. -/
def getWikiArticles (category language : JSArg) : Request :=
  let category := category.orDefault JSArg.null
  let language := language.orDefault (JSArg.string "ur")
  let params := appendIfTruthy [] "category" category ++ [("language", language.toString)]
  apiGet ("/api/wiki?" ++ urlSearchParamsToString params)

/-- The function `sendChatMessage(message, userId = null, language = 'ur')`. -/
def sendChatMessage (message userId language : JSArg) : Request :=
  { method := "POST"
    url := "/api/chat"
    body := some
      { user_id := userId.orDefault JSArg.null
        question := message
        language := language.orDefault (JSArg.string "ur") } }

end apiService

/-- The value of the `language` prop. -/
def Language.code : Language → String
  | Language.ur => "ur"
  | Language.en => "en"

/-- The request an effect of the AgriBot page hands to axios, if it is one of
the API calls. -/
def BotEffect.request : BotEffect → Option Request
  | BotEffect.sendChatMessage message userId language =>
      some (apiService.sendChatMessage (JSArg.string message)
        (match userId with
          | none => JSArg.null
          | some u => JSArg.string u)
        (JSArg.string language.code))
  | BotEffect.getWeatherAlerts region language =>
      some (apiService.getWeatherAlerts
        (match region with
          | none => JSArg.null
          | some r => JSArg.string r)
        (JSArg.string language.code))
  | BotEffect.getPestAlerts region language =>
      some (apiService.getPestAlerts
        (match region with
          | none => JSArg.null
          | some r => JSArg.string r)
        (JSArg.string language.code))
  | _ => none

/-! ## Reading a query string back -/

/-- The pieces of `cs` between occurrences of `sep`. -/
def splitOnChar (sep : Char) : List Char → List (List Char)
  | [] => [[]]
  | c :: cs =>
      if c = sep then [] :: splitOnChar sep cs
      else
        match splitOnChar sep cs with
        | [] => [[c]]
        | seg :: rest => (c :: seg) :: rest

/-- The query of a URL: what stands after the first `?`, up to a `#`. -/
def queryString (url : String) : List Char :=
  ((url.data.dropWhile fun c => c != '?').drop 1).takeWhile fun c => c != '#'

/-- The parameters a server reads from the query of a URL, as raw (still
encoded) name and value: the non-empty pieces between `&`, each cut at its
first `=`. -/
def queryParameters (url : String) : List (String × String) :=
  ((splitOnChar '&' (queryString url)).filter fun seg => !seg.isEmpty).map fun seg =>
    (String.mk (seg.takeWhile fun c => c != '='),
      String.mk ((seg.dropWhile fun c => c != '=').drop 1))

/-! ## Filters, rendered lists and overlapping fetches -/

/-- The value shown by an effect of a calculator: the `value` of the record
handed to `setResult`, if the effect is such a call. -/
def ToolsEffect.value? : ToolsEffect → Option String
  | ToolsEffect.setResult (some r) => some r.value
  | _ => none

/-- The function `filterPrices` of `MarketIntelligence.js` on an array
`prices`: the array it hands to `setFilteredPrices`. The case mapping
`String.prototype.toLowerCase` of the engine is a parameter. -/
def filterPrices (toLowerCase : String → String) (searchTerm filterRegion : String)
    (prices : List MarketPrice) : List MarketPrice :=
  let filtered := prices
  let filtered :=
    if searchTerm ≠ "" then
      filtered.filter fun price =>
        includes (toLowerCase price.crop_name) (toLowerCase searchTerm)
    else filtered
  let filtered :=
    if filterRegion ≠ "" then
      filtered.filter fun price => decide (toLowerCase price.region = toLowerCase filterRegion)
    else filtered
  filtered

/-- The lists `uniqueCourses` and `filteredCourses` as the component body of
`LearningHub.js` computes them on every render from the stored value:
`courses.filter(...)` exists on an array only. -/
def LearningHubState.renderedCourses {ι : Type} [DecidableEq ι] (s : LearningHubState ι) :
    Except JSError (List (Course ι)) :=
  match s.courses with
  | JSData.array items => Except.ok (filteredCourses s.filter items)
  | JSData.nullish =>
      Except.error { name := "TypeError", message := "Cannot read properties of null" }
  | JSData.text _ =>
      Except.error { name := "TypeError", message := "courses.filter is not a function" }
  | JSData.scalar _ =>
      Except.error { name := "TypeError", message := "courses.filter is not a function" }
  | JSData.object _ =>
      Except.error { name := "TypeError", message := "courses.filter is not a function" }

/-- The lists `uniqueArticles` and `filteredArticles` as the component body of
`SustainableWiki.js` computes them on every render from the stored value. -/
def WikiState.renderedArticles {ι : Type} [DecidableEq ι] (toLowerCase : String → String)
    (s : WikiState ι) : Except JSError (List (WikiArticle ι)) :=
  match s.articles with
  | JSData.array items => Except.ok (filteredArticles toLowerCase s.searchTerm items)
  | JSData.nullish =>
      Except.error { name := "TypeError", message := "Cannot read properties of null" }
  | JSData.text _ =>
      Except.error { name := "TypeError", message := "articles.filter is not a function" }
  | JSData.scalar _ =>
      Except.error { name := "TypeError", message := "articles.filter is not a function" }
  | JSData.object _ =>
      Except.error { name := "TypeError", message := "articles.filter is not a function" }

/-- The LearningHub page after the fetches of a list of settlements ran their
continuations, in the order the requests settled; each settlement carries the
language its request was issued for, which the continuation does not look at. -/
def LearningHubState.settleAll {ι : Type} (s : LearningHubState ι)
    (settlements : List (Language × Settled (JSData (Course ι)))) : LearningHubState ι :=
  settlements.foldl (fun state x => state.run (fetchCourses x.2).effects) s

/-- The SustainableWiki page after the fetches of a list of settlements ran
their continuations, in the order the requests settled; each settlement
carries the language and the category its request was issued for, which the
continuation does not look at. -/
def WikiState.settleAll {ι : Type} (s : WikiState ι)
    (settlements : List ((Language × String) × Settled (JSData (WikiArticle ι)))) :
    WikiState ι :=
  settlements.foldl (fun state x => state.run (fetchArticles x.2).effects) s

/-! ## Sample states for the concrete scenarios -/

/-- A conversation in Urdu: the welcome message, one question and its answer. -/
def urduConversation : AgriBotState :=
  { messages :=
      [ { type := "bot", text := welcomeText Language.ur, timestamp := "t0" },
        { type := "user", text := "گندم", timestamp := "t1" },
        { type := "bot", text := "ربیع", timestamp := "t2" } ]
    input := "", loading := false
    alerts := { weather := JSData.array [], pests := JSData.array [] } }

/-- A course for the concrete scenarios. -/
def sampleCourse : Course Nat :=
  { id := 1, title := "Composting", description := "", category := "waste_management",
    content := "", video_url := none }

/-- A wiki article for the concrete scenarios. -/
def sampleArticle : WikiArticle Nat :=
  { id := 1, title := "Biochar", content := "", category := "waste_management",
    tags := none, wiki_url := none }

/-- A market price for the concrete scenarios. -/
def samplePrice : MarketPrice :=
  { id := 1, crop_name := "Wheat", region := "Punjab", price_per_kg := JSNumber.lit 95 1,
    mandi_name := none, recorded_at := "2024-01-01" }

/-- A weather alert for the concrete scenarios. -/
def sampleWeatherAlert : WeatherAlert :=
  { id := 1, region := "Punjab", message := "Heavy rain", severity := "high" }

/-- A pest alert for the concrete scenarios. -/
def samplePestAlert : PestAlert :=
  { id := 1, pest_name := "Locust", crop_affected := "Wheat", prevention := "Spray" }

/-- A request failure as axios reports it. -/
def networkError : JSError := { name := "AxiosError", message := "Network Error" }

/-- An AgriBot page, mounted in Urdu, that shows one alert of each kind. -/
def botWithAlerts : AgriBotState :=
  { messages := [{ type := "bot", text := welcomeText Language.ur, timestamp := "t0" }]
    input := "", loading := false
    alerts := { weather := JSData.array [sampleWeatherAlert],
                pests := JSData.array [samplePestAlert] } }

/-- A page that shows the result of an earlier calculation: 2.5 acres of rice
under sprinklers on the water tool. -/
def pageWithResult (tool area energyUsage wasteAmount : String) : AgriToolsState :=
  { activeTool := tool
    calcValues :=
      { area := area, cropType := "rice", irrigationType := "sprinkler", soilType := "",
        energyUsage := energyUsage, wasteType := "", wasteAmount := wasteAmount,
        fertilizerType := "" }
    result := some
      { label := "Water Required", value := "101250.00", unit := "Liters per week",
        details := "Crop: rice, Irrigation: sprinkler" } }

/-! # Theorems -/

/-! ## Facts about numbers and lookups -/

theorem JSNumber.orZero_of_isPositive {x : JSNumber} (h : x.isPositive = true) :
    x.orZero = x := by
  cases x with
  | nan => simp [JSNumber.isPositive] at h
  | inf s => simp [JSNumber.orZero, JSNumber.truthy]
  | fin s m e =>
      simp only [JSNumber.isPositive, Bool.and_eq_true] at h
      simp [JSNumber.orZero, JSNumber.truthy, h.2]

theorem JSNumber.leZero_of_isPositive {x : JSNumber} (h : x.isPositive = true) :
    x.leZero = false := by
  cases x with
  | nan => rfl
  | inf s => simpa [JSNumber.isPositive, JSNumber.leZero] using h
  | fin s m e =>
      simp only [JSNumber.isPositive, Bool.and_eq_true, Bool.not_eq_true', bne_iff_ne] at h
      simp [JSNumber.leZero, h.1, h.2]

theorem JSNumber.orZero_leZero_of_not_isPositive {x : JSNumber}
    (h : x.isPositive = false) : x.orZero.leZero = true := by
  cases x with
  | nan => decide
  | inf s =>
      simp only [JSNumber.isPositive, Bool.not_eq_false'] at h
      simp [JSNumber.orZero, JSNumber.truthy, JSNumber.leZero, h]
  | fin s m e =>
      by_cases hm : m = 0
      · subst hm
        have h0 : (JSNumber.fin s 0 e).orZero = JSNumber.lit 0 1 := by
          simp [JSNumber.orZero, JSNumber.truthy]
        rw [h0]
        decide
      · have hs : s = true := by
          cases s
          · simp [JSNumber.isPositive, hm] at h
          · rfl
        simp [JSNumber.orZero, JSNumber.truthy, JSNumber.leZero, hm, hs]

/-- The guard `area <= 0` on `parseFloat(x) || 0` fires exactly when the
parsed value is not positive. -/
theorem JSNumber.orZero_leZero_iff (x : JSNumber) :
    x.orZero.leZero = true ↔ x.isPositive = false := by
  constructor
  · intro h
    cases hp : x.isPositive with
    | false => rfl
    | true =>
        rw [JSNumber.orZero_of_isPositive hp, JSNumber.leZero_of_isPositive hp] at h
        cases h
  · exact JSNumber.orZero_leZero_of_not_isPositive

/-- No option of the crop select is empty or names a member inherited from
`Object.prototype`. -/
theorem cropTypeOptions_own (c : String) (h : c ∈ cropTypeOptions) :
    c ≠ "" ∧ c ∉ objectPrototypeKeys := by
  simp only [cropTypeOptions, List.mem_cons, List.mem_singleton, List.not_mem_nil,
    or_false] at h
  rcases h with rfl | rfl | rfl | rfl <;> decide

/-- No option of the irrigation select is empty or names a member inherited
from `Object.prototype`. -/
theorem irrigationTypeOptions_own (m : String) (h : m ∈ irrigationTypeOptions) :
    m ≠ "" ∧ m ∉ objectPrototypeKeys := by
  simp only [irrigationTypeOptions, List.mem_cons, List.mem_singleton, List.not_mem_nil,
    or_false] at h
  rcases h with rfl | rfl | rfl <;> decide

theorem cropFactor_eq_spec (c : String) (hc : c ≠ "") (hp : c ∉ objectPrototypeKeys) :
    cropFactor c = specCropMultiplier c := by
  unfold cropFactor specCropMultiplier
  simp only [strOr, hc, if_false]
  by_cases h1 : c = "wheat"
  · subst h1; decide
  by_cases h2 : c = "rice"
  · subst h2; decide
  by_cases h3 : c = "cotton"
  · subst h3; decide
  by_cases h4 : c = "vegetables"
  · subst h4; decide
  have b1 : (c == "wheat") = false := by simpa using h1
  have b2 : (c == "rice") = false := by simpa using h2
  have b3 : (c == "cotton") = false := by simpa using h3
  have b4 : (c == "vegetables") = false := by simpa using h4
  simp [getProperty, cropMultiplier, List.lookup, b1, b2, b3, b4, h1, h2, h3, h4, hp,
    JSValue.or, JSValue.truthy, JSValue.toNumber]

theorem irrigationFactor_eq_spec (m : String) (hm : m ≠ "")
    (hp : m ∉ objectPrototypeKeys) : irrigationFactor m = specIrrigationMultiplier m := by
  unfold irrigationFactor specIrrigationMultiplier
  simp only [strOr, hm, if_false]
  by_cases h1 : m = "flood"
  · subst h1; decide
  by_cases h2 : m = "sprinkler"
  · subst h2; decide
  by_cases h3 : m = "drip"
  · subst h3; decide
  have b1 : (m == "flood") = false := by simpa using h1
  have b2 : (m == "sprinkler") = false := by simpa using h2
  have b3 : (m == "drip") = false := by simpa using h3
  simp [getProperty, irrigationMultiplier, List.lookup, b1, b2, b3, h1, h2, h3, hp,
    JSValue.or, JSValue.truthy, JSValue.toNumber]

theorem fertilizerFactor_eq_spec (c : String) (hp : c ∉ objectPrototypeKeys) :
    fertilizerFactor (strOr c "wheat") = specFertilizerPerAcre c := by
  by_cases h0 : c = ""
  · subst h0; decide
  unfold fertilizerFactor specFertilizerPerAcre
  simp only [strOr, h0, if_false]
  by_cases h1 : c = "wheat"
  · subst h1; decide
  by_cases h2 : c = "rice"
  · subst h2; decide
  by_cases h3 : c = "cotton"
  · subst h3; decide
  by_cases h4 : c = "vegetables"
  · subst h4; decide
  have b1 : (c == "wheat") = false := by simpa using h1
  have b2 : (c == "rice") = false := by simpa using h2
  have b3 : (c == "cotton") = false := by simpa using h3
  have b4 : (c == "vegetables") = false := by simpa using h4
  simp [getProperty, fertilizerPerAcre, List.lookup, b1, b2, b3, b4, h1, h2, h3, h4, hp,
    JSValue.or, JSValue.truthy, JSValue.toNumber]

/-- Past the area guard, `handleCalculate` dispatches on the active tool with
the parsed area. -/
theorem handleCalculate_of_area_pos (language : Language) (s : AgriToolsState)
    (harea : (parseFloat s.calcValues.area).isPositive = true) :
    handleCalculate language s =
      if s.activeTool = "water" then
        [ToolsEffect.setResult
          (some (waterCalculation language s.calcValues (parseFloat s.calcValues.area)))]
      else if s.activeTool = "fertilizer" then
        [ToolsEffect.setResult
          (some (fertilizerCalculation language s.calcValues (parseFloat s.calcValues.area)))]
      else if s.activeTool = "energy" then
        if (parseFloat s.calcValues.energyUsage).isPositive = true then
          [ToolsEffect.setResult
            (some (energyCalculation language (parseFloat s.calcValues.energyUsage)))]
        else [ToolsEffect.alert (energyUsageAlert language)]
      else if s.activeTool = "waste" then
        if (parseFloat s.calcValues.wasteAmount).isPositive = true then
          [ToolsEffect.setResult
            (some (wasteCalculation language (parseFloat s.calcValues.wasteAmount)))]
        else [ToolsEffect.alert (wasteAmountAlert language)]
      else [] := by
  have ha := JSNumber.orZero_of_isPositive harea
  have hl := JSNumber.leZero_of_isPositive harea
  unfold handleCalculate
  simp only [ha, hl, Bool.false_eq_true, if_false]
  by_cases t1 : s.activeTool = "water"
  · simp only [t1, if_true]
  by_cases t2 : s.activeTool = "fertilizer"
  · simp only [t1, t2, if_true, if_false]
  by_cases t3 : s.activeTool = "energy"
  · simp only [t1, t2, t3, if_true, if_false]
    cases hu : (parseFloat s.calcValues.energyUsage).isPositive with
    | true =>
        simp [JSNumber.orZero_of_isPositive hu, JSNumber.leZero_of_isPositive hu]
    | false =>
        simp [JSNumber.orZero_leZero_of_not_isPositive hu]
  by_cases t4 : s.activeTool = "waste"
  · simp only [t1, t2, t3, t4, if_true, if_false]
    cases hu : (parseFloat s.calcValues.wasteAmount).isPositive with
    | true =>
        simp [JSNumber.orZero_of_isPositive hu, JSNumber.leZero_of_isPositive hu]
    | false =>
        simp [JSNumber.orZero_leZero_of_not_isPositive hu]
  simp only [t1, t2, t3, t4, if_false]

/-! ## The calculators -/

/-- C1: for every area that parses to a positive number and every non-empty
crop type `c` and irrigation type `m` the page state can hold,
`handleCalculate` with active tool `water` sets a result whose value is
`area × 27000 × cropMultiplier(c) × irrigationMultiplier(m)` to two decimals,
with the multipliers of the specification (1 for any other `c` or `m`). The
state holds what the two selects deliver, one of their option values; the
statement covers these and every other non-empty string as well, the names
of the members inherited from `Object.prototype` apart. -/
theorem handleCalculate_water_value (language : Language) (s : AgriToolsState)
    (htool : s.activeTool = "water")
    (harea : (parseFloat s.calcValues.area).isPositive = true)
    (hc : s.calcValues.cropType ∈ cropTypeOptions ∨
      (s.calcValues.cropType ≠ "" ∧ s.calcValues.cropType ∉ objectPrototypeKeys))
    (hm : s.calcValues.irrigationType ∈ irrigationTypeOptions ∨
      (s.calcValues.irrigationType ≠ "" ∧
        s.calcValues.irrigationType ∉ objectPrototypeKeys)) :
    ∃ r : Calculation, handleCalculate language s = [ToolsEffect.setResult (some r)] ∧
      r.value = specWaterValue (parseFloat s.calcValues.area)
        s.calcValues.cropType s.calcValues.irrigationType := by
  have hc' : s.calcValues.cropType ≠ "" ∧ s.calcValues.cropType ∉ objectPrototypeKeys :=
    hc.elim (cropTypeOptions_own _) id
  have hm' : s.calcValues.irrigationType ≠ "" ∧
      s.calcValues.irrigationType ∉ objectPrototypeKeys :=
    hm.elim (irrigationTypeOptions_own _) id
  refine ⟨waterCalculation language s.calcValues (parseFloat s.calcValues.area), ?_, ?_⟩
  · rw [handleCalculate_of_area_pos language s harea, if_pos htool]
  · unfold waterCalculation specWaterValue
    simp only [cropFactor_eq_spec _ hc'.1 hc'.2, irrigationFactor_eq_spec _ hm'.1 hm'.2]

/-- Witness for C1: area 2.5, rice, sprinkler (options of the two selects)
gives 101250.00; area 2.5 with a crop and an irrigation type outside the
tables gives `2.5 × 27000 × 1 × 1`, which is 67500.00. -/
theorem handleCalculate_water_value_witness :
    ((∃ r : Calculation, handleCalculate Language.en (formState "water" "2.5" "rice" "sprinkler" "" "") =
        [ToolsEffect.setResult (some r)] ∧
      r.value = specWaterValue (parseFloat "2.5") "rice" "sprinkler") ∧
    specWaterValue (parseFloat "2.5") "rice" "sprinkler" = "101250.00") ∧
    ((∃ r : Calculation, handleCalculate Language.en (formState "water" "2.5" "maize" "furrow" "" "") =
        [ToolsEffect.setResult (some r)] ∧
      r.value = specWaterValue (parseFloat "2.5") "maize" "furrow") ∧
    specWaterValue (parseFloat "2.5") "maize" "furrow" = "67500.00") :=
  ⟨⟨handleCalculate_water_value Language.en (formState "water" "2.5" "rice" "sprinkler" "" "")
      (by decide) (by decide) (Or.inl (by decide)) (Or.inl (by decide)), by decide⟩,
    ⟨handleCalculate_water_value Language.en (formState "water" "2.5" "maize" "furrow" "" "")
      (by decide) (by decide) (Or.inr (by decide)) (Or.inr (by decide)), by decide⟩⟩

/-- The table lookups read through the prototype chain: on a state seeded
with the crop type `constructor`, which no option of the crop select delivers,
the value set is `NaN`, while `1 × 27000 × 1 × 0.6` to two decimals is
`16200.00`. -/
theorem handleCalculate_water_inherited_key :
    (parseFloat "1").isPositive = true ∧
    handleCalculate Language.en (formState "water" "1" "constructor" "drip" "" "") =
      [ToolsEffect.setResult (some
        { label := "Water Required", value := "NaN", unit := "Liters per week",
          details := "Crop: constructor, Irrigation: drip" })] ∧
    specWaterValue (parseFloat "1") "constructor" "drip" = "16200.00" := by
  decide

/-- C2 (amended): for every positive area the water calculator uses the wheat
multiplier 0.8 when the crop type is left empty and the flood multiplier 1.5
when the irrigation type is left empty (and the factor the code computes for a
field that is filled in); with both fields empty the value is
`area × 27000 × 0.8 × 1.5` to two decimals. -/
theorem handleCalculate_water_empty_fields (language : Language) (s : AgriToolsState)
    (htool : s.activeTool = "water")
    (harea : (parseFloat s.calcValues.area).isPositive = true) :
    ∃ r : Calculation, handleCalculate language s = [ToolsEffect.setResult (some r)] ∧
      r.value = ((((parseFloat s.calcValues.area).mul (JSNumber.lit 27000 1)).mul
        (if s.calcValues.cropType = "" then JSNumber.lit 8 10
          else cropFactor s.calcValues.cropType)).mul
        (if s.calcValues.irrigationType = "" then JSNumber.lit 15 10
          else irrigationFactor s.calcValues.irrigationType)).toFixed 2 := by
  have hc0 : cropFactor "" = JSNumber.lit 8 10 := by decide
  have hm0 : irrigationFactor "" = JSNumber.lit 15 10 := by decide
  refine ⟨waterCalculation language s.calcValues (parseFloat s.calcValues.area), ?_, ?_⟩
  · rw [handleCalculate_of_area_pos language s harea, if_pos htool]
  · by_cases hc : s.calcValues.cropType = "" <;>
      by_cases hm : s.calcValues.irrigationType = "" <;>
      simp only [waterCalculation, hc, hm, hc0, hm0, if_true, if_false]

/-- Witness for C2: area 1 with both selects left empty gives
`1 × 27000 × 0.8 × 1.5`, which is 32400.00. -/
theorem handleCalculate_water_empty_fields_witness :
    (parseFloat "1").isPositive = true ∧
    (∃ r : Calculation,
      handleCalculate Language.en (formState "water" "1" "" "" "" "") =
        [ToolsEffect.setResult (some r)] ∧
      r.value = ((((parseFloat "1").mul (JSNumber.lit 27000 1)).mul
        (JSNumber.lit 8 10)).mul (JSNumber.lit 15 10)).toFixed 2) ∧
    ((((parseFloat "1").mul (JSNumber.lit 27000 1)).mul
      (JSNumber.lit 8 10)).mul (JSNumber.lit 15 10)).toFixed 2 = "32400.00" :=
  ⟨by decide,
    handleCalculate_water_empty_fields Language.en (formState "water" "1" "" "" "" "")
      (by decide) (by decide),
    by decide⟩

/-- C2 fails as stated: with area 1 and both selects left empty the value set
is `32400.00`, not `1 × 27000` to two decimals, which is `27000.00`. -/
theorem handleCalculate_water_empty_not_one :
    (parseFloat "1").isPositive = true ∧
    handleCalculate Language.en (formState "water" "1" "" "" "" "") =
      [ToolsEffect.setResult (some
        { label := "Water Required", value := "32400.00", unit := "Liters per week",
          details := "Crop: General, Irrigation: General" })] ∧
    ((parseFloat "1").mul (JSNumber.lit 27000 1)).toFixed 2 = "27000.00" := by
  decide

/-- C3: for every positive area and every crop type the page state can hold
(recognised, unrecognised or empty), `handleCalculate` with active tool
`fertilizer` sets a result whose value is `area × perAcre(crop)` to two
decimals, with the rates of the specification (100 for any other or empty
crop). The state holds what the crop select delivers, one of its option
values or the empty placeholder; the statement covers these and every other
string as well, the names of the members inherited from `Object.prototype`
apart. -/
theorem handleCalculate_fertilizer_value (language : Language) (s : AgriToolsState)
    (htool : s.activeTool = "fertilizer")
    (harea : (parseFloat s.calcValues.area).isPositive = true)
    (hc : s.calcValues.cropType ∈ cropTypeOptions ∨
      s.calcValues.cropType ∉ objectPrototypeKeys) :
    ∃ r : Calculation, handleCalculate language s = [ToolsEffect.setResult (some r)] ∧
      r.value = ((parseFloat s.calcValues.area).mul
        (specFertilizerPerAcre s.calcValues.cropType)).toFixed 2 := by
  have hne : s.activeTool ≠ "water" := by rw [htool]; decide
  have hcp : s.calcValues.cropType ∉ objectPrototypeKeys :=
    hc.elim (fun h => (cropTypeOptions_own _ h).2) id
  refine ⟨fertilizerCalculation language s.calcValues (parseFloat s.calcValues.area), ?_, ?_⟩
  · rw [handleCalculate_of_area_pos language s harea, if_neg hne, if_pos htool]
  · simp only [fertilizerCalculation, fertilizerFactor_eq_spec _ hcp]

/-- Witness for C3: area 2.5 of rice (an option of the select) needs 300.00;
area 2.5 with the select left empty, and with a crop outside the table, needs
`2.5 × 100`, which is 250.00. -/
theorem handleCalculate_fertilizer_value_witness :
    ((∃ r : Calculation,
      handleCalculate Language.en (formState "fertilizer" "2.5" "rice" "" "" "") =
        [ToolsEffect.setResult (some r)] ∧
      r.value = ((parseFloat "2.5").mul (specFertilizerPerAcre "rice")).toFixed 2) ∧
    ((parseFloat "2.5").mul (specFertilizerPerAcre "rice")).toFixed 2 = "300.00") ∧
    ((∃ r : Calculation,
      handleCalculate Language.en (formState "fertilizer" "2.5" "" "" "" "") =
        [ToolsEffect.setResult (some r)] ∧
      r.value = ((parseFloat "2.5").mul (specFertilizerPerAcre "")).toFixed 2) ∧
    ((parseFloat "2.5").mul (specFertilizerPerAcre "")).toFixed 2 = "250.00") ∧
    ((∃ r : Calculation,
      handleCalculate Language.en (formState "fertilizer" "2.5" "maize" "" "" "") =
        [ToolsEffect.setResult (some r)] ∧
      r.value = ((parseFloat "2.5").mul (specFertilizerPerAcre "maize")).toFixed 2) ∧
    ((parseFloat "2.5").mul (specFertilizerPerAcre "maize")).toFixed 2 = "250.00") :=
  ⟨⟨handleCalculate_fertilizer_value Language.en
      (formState "fertilizer" "2.5" "rice" "" "" "") (by decide) (by decide)
      (Or.inl (by decide)), by decide⟩,
    ⟨handleCalculate_fertilizer_value Language.en
      (formState "fertilizer" "2.5" "" "" "" "") (by decide) (by decide)
      (Or.inr (by decide)), by decide⟩,
    ⟨handleCalculate_fertilizer_value Language.en
      (formState "fertilizer" "2.5" "maize" "" "" "") (by decide) (by decide)
      (Or.inr (by decide)), by decide⟩⟩

/-- The rate lookup reads through the prototype chain: on a state seeded with
the crop type `toString`, which no option of the crop select delivers, the
value set is `NaN`, while `2 × 100` to two decimals is `200.00`. -/
theorem handleCalculate_fertilizer_inherited_key :
    (parseFloat "2").isPositive = true ∧
    handleCalculate Language.en (formState "fertilizer" "2" "toString" "" "" "") =
      [ToolsEffect.setResult (some
        { label := "Fertilizer Required", value := "NaN", unit := "Kilograms",
          details := "Crop: toString, Fertilizer Type: npk" })] ∧
    ((parseFloat "2").mul (specFertilizerPerAcre "toString")).toFixed 2 = "200.00" := by
  decide

/-- C4: for every positive area and every positive energy usage `u`,
`handleCalculate` with active tool `energy` sets a result whose value is
`u × 0.20` and whose details report a cost saved of `(u × 0.20) × 15`, both to
two decimals; for `u = 100` the value is 20.00 and the cost 300.00. -/
theorem handleCalculate_energy_value (language : Language) (s : AgriToolsState)
    (htool : s.activeTool = "energy")
    (harea : (parseFloat s.calcValues.area).isPositive = true)
    (husage : (parseFloat s.calcValues.energyUsage).isPositive = true) :
    ∃ r : Calculation, handleCalculate language s = [ToolsEffect.setResult (some r)] ∧
      r.value = ((parseFloat s.calcValues.energyUsage).mul (JSNumber.lit 20 100)).toFixed 2 ∧
      r.details = language.pick
        ("بچت شدہ رقم: " ++ (((parseFloat s.calcValues.energyUsage).mul
          (JSNumber.lit 20 100)).mul (JSNumber.lit 15 1)).toFixed 2 ++ " روپے")
        ("Cost Saved: ₹" ++ (((parseFloat s.calcValues.energyUsage).mul
          (JSNumber.lit 20 100)).mul (JSNumber.lit 15 1)).toFixed 2) ∧
      (s.calcValues.energyUsage = "100" →
        r.value = "20.00" ∧
        r.details = language.pick "بچت شدہ رقم: 300.00 روپے" "Cost Saved: ₹300.00") := by
  have h1 : s.activeTool ≠ "water" := by rw [htool]; decide
  have h2 : s.activeTool ≠ "fertilizer" := by rw [htool]; decide
  refine ⟨energyCalculation language (parseFloat s.calcValues.energyUsage), ?_, rfl, rfl, ?_⟩
  · rw [handleCalculate_of_area_pos language s harea, if_neg h1, if_neg h2, if_pos htool,
      if_pos husage]
  · intro h100
    rw [h100]
    cases language <;> decide

/-- Witness for C4: area 3 and usage 100 give 20.00 KWh and 300.00 saved. -/
theorem handleCalculate_energy_value_witness :
    (parseFloat "3").isPositive = true ∧ (parseFloat "100").isPositive = true ∧
    ∃ r : Calculation,
      handleCalculate Language.en (formState "energy" "3" "" "" "100" "") =
        [ToolsEffect.setResult (some r)] ∧
      r.value = "20.00" ∧ r.details = "Cost Saved: ₹300.00" := by
  obtain ⟨r, hr, _, _, h100⟩ :=
    handleCalculate_energy_value Language.en (formState "energy" "3" "" "" "100" "")
      (by decide) (by decide) (by decide)
  exact ⟨by decide, by decide, r, hr, (h100 rfl).1, (h100 rfl).2⟩

/-- C5: for every positive area and every positive waste amount `w`,
`handleCalculate` with active tool `waste` sets a result whose value (compost)
is `w × 0.3` and whose details report biochar of `w × 0.2`, both to two
decimals; for `w = 10` the compost is 3.00 and the biochar 2.00. -/
theorem handleCalculate_waste_value (language : Language) (s : AgriToolsState)
    (htool : s.activeTool = "waste")
    (harea : (parseFloat s.calcValues.area).isPositive = true)
    (hwaste : (parseFloat s.calcValues.wasteAmount).isPositive = true) :
    ∃ r : Calculation, handleCalculate language s = [ToolsEffect.setResult (some r)] ∧
      r.value = ((parseFloat s.calcValues.wasteAmount).mul (JSNumber.lit 3 10)).toFixed 2 ∧
      r.details = language.pick
        ("بائیوچار: " ++ ((parseFloat s.calcValues.wasteAmount).mul
          (JSNumber.lit 2 10)).toFixed 2 ++ " کلوگرام")
        ("Biochar: " ++ ((parseFloat s.calcValues.wasteAmount).mul
          (JSNumber.lit 2 10)).toFixed 2 ++ " kg") ∧
      (s.calcValues.wasteAmount = "10" →
        r.value = "3.00" ∧
        r.details = language.pick "بائیوچار: 2.00 کلوگرام" "Biochar: 2.00 kg") := by
  have h1 : s.activeTool ≠ "water" := by rw [htool]; decide
  have h2 : s.activeTool ≠ "fertilizer" := by rw [htool]; decide
  have h3 : s.activeTool ≠ "energy" := by rw [htool]; decide
  refine ⟨wasteCalculation language (parseFloat s.calcValues.wasteAmount), ?_, rfl, rfl, ?_⟩
  · rw [handleCalculate_of_area_pos language s harea, if_neg h1, if_neg h2, if_neg h3,
      if_pos htool, if_pos hwaste]
  · intro h10
    rw [h10]
    cases language <;> decide

/-- Witness for C5: area 3 and 10 tons give 3.00 compost and 2.00 biochar. -/
theorem handleCalculate_waste_value_witness :
    (parseFloat "3").isPositive = true ∧ (parseFloat "10").isPositive = true ∧
    ∃ r : Calculation,
      handleCalculate Language.en (formState "waste" "3" "" "" "" "10") =
        [ToolsEffect.setResult (some r)] ∧
      r.value = "3.00" ∧ r.details = "Biochar: 2.00 kg" := by
  obtain ⟨r, hr, _, _, h10⟩ :=
    handleCalculate_waste_value Language.en (formState "waste" "3" "" "" "" "10")
      (by decide) (by decide) (by decide)
  exact ⟨by decide, by decide, r, hr, (h10 rfl).1, (h10 rfl).2⟩

/-- At the area guard: a parsed area that is not positive ends the handler
with the area alert alone. -/
theorem handleCalculate_of_area_not_pos (language : Language) (s : AgriToolsState)
    (harea : (parseFloat s.calcValues.area).isPositive = false) :
    handleCalculate language s = [ToolsEffect.alert (invalidAreaAlert language)] := by
  unfold handleCalculate
  simp only [JSNumber.orZero_leZero_of_not_isPositive harea, if_true]

/-- C6: for every tool and every area input that does not parse to a positive
number (zero, negative, empty or non-numeric), `handleCalculate` raises the
invalid-area alert and nothing else: `setResult` is not called. -/
theorem handleCalculate_invalid_area (language : Language) (s : AgriToolsState)
    (harea : (parseFloat s.calcValues.area).isPositive = false) :
    handleCalculate language s = [ToolsEffect.alert (invalidAreaAlert language)] ∧
      ∀ r, ToolsEffect.setResult r ∉ handleCalculate language s := by
  have h := handleCalculate_of_area_not_pos language s harea
  refine ⟨h, ?_⟩
  intro r hr
  rw [h] at hr
  simp at hr

/-- Witness for C6: an empty, a zero, a negative and a non-numeric area, one
on each of the four tools, with every other input filled in. -/
theorem handleCalculate_invalid_area_witness :
    (handleCalculate Language.en (formState "water" "" "rice" "drip" "100" "10") =
        [ToolsEffect.alert "Please enter a valid area"] ∧
      ∀ r, ToolsEffect.setResult r ∉
        handleCalculate Language.en (formState "water" "" "rice" "drip" "100" "10")) ∧
    (handleCalculate Language.en (formState "fertilizer" "0" "rice" "drip" "100" "10") =
        [ToolsEffect.alert "Please enter a valid area"] ∧
      ∀ r, ToolsEffect.setResult r ∉
        handleCalculate Language.en (formState "fertilizer" "0" "rice" "drip" "100" "10")) ∧
    (handleCalculate Language.en (formState "energy" "-4" "rice" "drip" "100" "10") =
        [ToolsEffect.alert "Please enter a valid area"] ∧
      ∀ r, ToolsEffect.setResult r ∉
        handleCalculate Language.en (formState "energy" "-4" "rice" "drip" "100" "10")) ∧
    (handleCalculate Language.ur (formState "waste" "abc" "rice" "drip" "100" "10") =
        [ToolsEffect.alert "براہ کرم صحیح رقبہ درج کریں"] ∧
      ∀ r, ToolsEffect.setResult r ∉
        handleCalculate Language.ur (formState "waste" "abc" "rice" "drip" "100" "10")) :=
  ⟨handleCalculate_invalid_area Language.en
      (formState "water" "" "rice" "drip" "100" "10") (by decide),
    handleCalculate_invalid_area Language.en
      (formState "fertilizer" "0" "rice" "drip" "100" "10") (by decide),
    handleCalculate_invalid_area Language.en
      (formState "energy" "-4" "rice" "drip" "100" "10") (by decide),
    handleCalculate_invalid_area Language.ur
      (formState "waste" "abc" "rice" "drip" "100" "10") (by decide)⟩

/-- C7: on the energy tool (energy usage) and the waste tool (waste amount),
a positive area with a second field that does not parse to a positive number
raises that field's alert and nothing else, and a result is set if and only if
both the area and the second field are positive. -/
theorem handleCalculate_second_field (language : Language) (s : AgriToolsState)
    (htool : s.activeTool = "energy" ∨ s.activeTool = "waste") :
    ((parseFloat s.calcValues.area).isPositive = true →
      (parseFloat (secondField s)).isPositive = false →
      handleCalculate language s = [ToolsEffect.alert (secondFieldAlert language s)]) ∧
    ((∃ r, ToolsEffect.setResult r ∈ handleCalculate language s) ↔
      ((parseFloat s.calcValues.area).isPositive = true ∧
        (parseFloat (secondField s)).isPositive = true)) := by
  have key : (parseFloat s.calcValues.area).isPositive = true →
      handleCalculate language s =
        if (parseFloat (secondField s)).isPositive = true then
          [ToolsEffect.setResult (some (
            if s.activeTool = "energy" then
              energyCalculation language (parseFloat s.calcValues.energyUsage)
            else wasteCalculation language (parseFloat s.calcValues.wasteAmount)))]
        else [ToolsEffect.alert (secondFieldAlert language s)] := by
    intro harea
    rw [handleCalculate_of_area_pos language s harea]
    rcases htool with h | h
    · have h1 : s.activeTool ≠ "water" := by rw [h]; decide
      have h2 : s.activeTool ≠ "fertilizer" := by rw [h]; decide
      simp only [secondField, secondFieldAlert, if_neg h1, if_neg h2, if_pos h]
    · have h1 : s.activeTool ≠ "water" := by rw [h]; decide
      have h2 : s.activeTool ≠ "fertilizer" := by rw [h]; decide
      have h3 : s.activeTool ≠ "energy" := by rw [h]; decide
      simp only [secondField, secondFieldAlert, if_neg h1, if_neg h2, if_neg h3, if_pos h]
  constructor
  · intro harea hsecond
    rw [key harea, hsecond]
    simp
  · constructor
    · rintro ⟨r, hr⟩
      cases harea : (parseFloat s.calcValues.area).isPositive with
      | false =>
          rw [handleCalculate_of_area_not_pos language s harea] at hr
          simp at hr
      | true =>
          cases hsecond : (parseFloat (secondField s)).isPositive with
          | false =>
              rw [key harea, hsecond] at hr
              simp at hr
          | true => exact ⟨rfl, rfl⟩
    · rintro ⟨harea, hsecond⟩
      rw [key harea, if_pos hsecond]
      exact ⟨_, List.mem_singleton.mpr rfl⟩

/-- Witness for C7: on the energy tool with area 2 and an empty usage the
usage alert is raised; on the waste tool a result is set exactly when both
fields are positive. -/
theorem handleCalculate_second_field_witness :
    (((parseFloat "2").isPositive = true → (parseFloat "").isPositive = false →
        handleCalculate Language.en (formState "energy" "2" "" "" "" "") =
          [ToolsEffect.alert "Please enter energy usage"]) ∧
      ((∃ r, ToolsEffect.setResult r ∈
          handleCalculate Language.en (formState "energy" "2" "" "" "" "")) ↔
        ((parseFloat "2").isPositive = true ∧ (parseFloat "").isPositive = true))) ∧
    (((parseFloat "2").isPositive = true → (parseFloat "-1").isPositive = false →
        handleCalculate Language.en (formState "waste" "2" "" "" "" "-1") =
          [ToolsEffect.alert "Please enter waste amount"]) ∧
      ((∃ r, ToolsEffect.setResult r ∈
          handleCalculate Language.en (formState "waste" "2" "" "" "" "-1")) ↔
        ((parseFloat "2").isPositive = true ∧ (parseFloat "-1").isPositive = true))) :=
  ⟨handleCalculate_second_field Language.en (formState "energy" "2" "" "" "" "")
      (Or.inl (by decide)),
    handleCalculate_second_field Language.en (formState "waste" "2" "" "" "" "-1")
      (Or.inr (by decide))⟩

/-- C8: for every state and every tool id, selecting the tool (also the one
already active) leaves the result null, makes that id the active tool and
keeps the input values. -/
theorem selectTool_clears_result (s : AgriToolsState) (id : String) :
    (s.run (selectTool id)).result = none ∧
    (s.run (selectTool id)).activeTool = id ∧
    (s.run (selectTool id)).calcValues = s.calcValues := by
  simp [AgriToolsState.run, selectTool, ToolsEffect.apply]

/-! ## Deduplication -/

theorem findIndexFrom_append_of_all_false {α : Type} (p : α → Bool) (pre l : List α)
    (k : Nat) (h : ∀ y ∈ pre, p y = false) :
    findIndexFrom p k (pre ++ l) = findIndexFrom p (k + pre.length) l := by
  induction pre generalizing k with
  | nil => simp
  | cons a pre ih =>
      have ha : p a = false := h a (List.mem_cons_self _ _)
      have hrest : ∀ y ∈ pre, p y = false := fun y hy => h y (List.mem_cons_of_mem _ hy)
      show findIndexFrom p k (a :: (pre ++ l)) = _
      simp only [findIndexFrom, ha, Bool.false_eq_true, if_false]
      rw [ih (k + 1) hrest]
      simp only [List.length_cons]
      congr 1
      omega

theorem findIndexFrom_lt_of_exists {α : Type} (p : α → Bool) (pre l : List α)
    (k : Nat) (h : ∃ y ∈ pre, p y = true) :
    findIndexFrom p k (pre ++ l) < ((k + pre.length : Nat) : Int) := by
  induction pre generalizing k with
  | nil => simp at h
  | cons a pre ih =>
      show findIndexFrom p k (a :: (pre ++ l)) < _
      simp only [findIndexFrom, List.length_cons]
      by_cases ha : p a = true
      · simp only [ha, if_true]
        omega
      · simp only [ha, if_false]
        obtain ⟨y, hy, hpy⟩ := h
        have hy' : y ∈ pre := by
          rcases List.mem_cons.mp hy with rfl | hy'
          · exact absurd hpy ha
          · exact hy'
        have := ih (k + 1) ⟨y, hy', hpy⟩
        have e : k + 1 + pre.length = k + (pre.length + 1) := by omega
        rw [e] at this
        exact this

theorem firstOccurrences_congr {α ι : Type} [DecidableEq ι] (getId : α → ι)
    (seen seen' : List ι) (xs : List α) (h : ∀ i, i ∈ seen ↔ i ∈ seen') :
    firstOccurrences getId seen xs = firstOccurrences getId seen' xs := by
  induction xs generalizing seen seen' with
  | nil => rfl
  | cons x xs ih =>
      simp only [firstOccurrences]
      by_cases hx : getId x ∈ seen
      · simp only [hx, (h _).mp hx, if_true]
        exact ih seen seen' h
      · have hx' : getId x ∉ seen' := fun e => hx ((h _).mpr e)
        simp only [hx, hx', if_false]
        refine congrArg (List.cons x) (ih _ _ ?_)
        intro i
        simp only [List.mem_append, h i]

/-- The index test of the filter keeps an entry exactly when no earlier entry
carries its id. -/
theorem filterFrom_eq_firstOccurrences {α ι : Type} [DecidableEq ι] (getId : α → ι)
    (self suf pre : List α) (hself : self = pre ++ suf) :
    filterFrom
      (fun x i => decide ((i : Int) = findIndex (fun y => decide (getId y = getId x)) self))
      pre.length suf = firstOccurrences getId (pre.map getId) suf := by
  induction suf generalizing pre with
  | nil => rfl
  | cons x rest ih =>
      have hself' : self = (pre ++ [x]) ++ rest := by simp [hself]
      have hrec := ih (pre ++ [x]) hself'
      simp only [List.length_append, List.length_singleton, List.map_append, List.map_cons,
        List.map_nil] at hrec
      simp only [filterFrom, firstOccurrences]
      by_cases hseen : getId x ∈ pre.map getId
      · have hex : ∃ y ∈ pre, decide (getId y = getId x) = true := by
          obtain ⟨y, hy, hyx⟩ := List.mem_map.mp hseen
          exact ⟨y, hy, by simp [hyx]⟩
        have hlt := findIndexFrom_lt_of_exists
          (fun y => decide (getId y = getId x)) pre (x :: rest) 0 hex
        have hne : ¬ ((pre.length : Int) =
            findIndex (fun y => decide (getId y = getId x)) self) := by
          unfold findIndex
          rw [hself]
          simp only [Nat.zero_add] at hlt
          omega
        simp only [hne, decide_False, Bool.false_eq_true, if_false, hseen, if_true]
        rw [hrec]
        apply firstOccurrences_congr
        intro i
        simp only [List.mem_append, List.mem_singleton]
        constructor
        · rintro (h | h)
          · exact h
          · exact h ▸ hseen
        · exact Or.inl
      · have hall : ∀ y ∈ pre, decide (getId y = getId x) = false := by
          intro y hy
          have : getId y ≠ getId x := fun e => hseen (List.mem_map.mpr ⟨y, hy, e⟩)
          simp [this]
        have heq : (pre.length : Int) =
            findIndex (fun y => decide (getId y = getId x)) self := by
          unfold findIndex
          rw [hself, findIndexFrom_append_of_all_false _ pre (x :: rest) 0 hall]
          simp [findIndexFrom]
        simp only [heq, decide_True, if_true, hseen, if_false]
        exact congrArg (List.cons x) hrec

theorem dedupeById_eq_firstOccurrences {α ι : Type} [DecidableEq ι] (getId : α → ι)
    (xs : List α) : dedupeById getId xs = firstOccurrences getId [] xs := by
  have h := filterFrom_eq_firstOccurrences getId xs xs [] rfl
  simpa [dedupeById, filterWithIndex] using h

theorem firstOccurrences_sublist {α ι : Type} [DecidableEq ι] (getId : α → ι)
    (seen : List ι) (xs : List α) : (firstOccurrences getId seen xs).Sublist xs := by
  induction xs generalizing seen with
  | nil => exact List.Sublist.slnil
  | cons x xs ih =>
      simp only [firstOccurrences]
      split
      · exact List.Sublist.cons _ (ih seen)
      · exact List.Sublist.cons₂ _ (ih _)

theorem firstOccurrences_filter {α ι : Type} [DecidableEq ι] (getId : α → ι)
    (seen : List ι) (xs : List α) (i : ι) :
    (firstOccurrences getId seen xs).filter (fun c => decide (getId c = i)) =
      if i ∈ seen then [] else (xs.find? (fun c => decide (getId c = i))).toList := by
  induction xs generalizing seen with
  | nil => simp [firstOccurrences]
  | cons x xs ih =>
      simp only [firstOccurrences]
      by_cases hx : getId x ∈ seen
      · simp only [hx, if_true, ih seen]
        by_cases hi : i ∈ seen
        · simp [hi]
        · have hne : getId x ≠ i := fun e => hi (e ▸ hx)
          simp [hi, List.find?, hne]
      · simp only [hx, if_false, List.filter_cons, ih (seen ++ [getId x])]
        by_cases hxi : getId x = i
        · subst hxi
          simp [hx, List.find?]
        · have hi' : (i ∈ seen ++ [getId x]) ↔ i ∈ seen := by
            simp [List.mem_append, Ne.symm hxi]
          simp only [hxi, decide_False, Bool.false_eq_true, if_false, hi', List.find?]

theorem firstOccurrences_nodup {α ι : Type} [DecidableEq ι] (getId : α → ι)
    (seen : List ι) (xs : List α) :
    ((firstOccurrences getId seen xs).map getId).Nodup := by
  induction xs generalizing seen with
  | nil => simp [firstOccurrences]
  | cons x xs ih =>
      simp only [firstOccurrences]
      by_cases hx : getId x ∈ seen
      · simp only [hx, if_true]
        exact ih seen
      · simp only [hx, if_false, List.map_cons]
        refine List.nodup_cons.mpr ⟨?_, ih _⟩
        intro hmem
        obtain ⟨y, hy, hyx⟩ := List.mem_map.mp hmem
        have hf : y ∈ (firstOccurrences getId (seen ++ [getId x]) xs).filter
            (fun c => decide (getId c = getId x)) := by
          simp [List.mem_filter, hy, hyx]
        rw [firstOccurrences_filter] at hf
        simp at hf

/-- C9: for every fetched list of courses or wiki articles the deduplicated
list has pairwise distinct ids, holds for each id exactly the first entry of
the input carrying it, and keeps the entries in input order; for articles with
ids 1, 1, 2 and an empty search term the rendered list is the first and the
third article. -/
theorem unique_lists_first_occurrence {ι : Type} [DecidableEq ι]
    (courses : List (Course ι)) (articles : List (WikiArticle ι)) :
    (((uniqueCourses courses).map Course.id).Nodup ∧
      (uniqueCourses courses).Sublist courses ∧
      ∀ i, (uniqueCourses courses).filter (fun c => decide (c.id = i)) =
        (courses.find? (fun c => decide (c.id = i))).toList) ∧
    (((uniqueArticles articles).map WikiArticle.id).Nodup ∧
      (uniqueArticles articles).Sublist articles ∧
      ∀ i, (uniqueArticles articles).filter (fun a => decide (a.id = i)) =
        (articles.find? (fun a => decide (a.id = i))).toList) ∧
    ∀ (toLowerCase : String → String) (a b c : WikiArticle Nat),
      filteredArticles toLowerCase ""
          [{ a with id := 1 }, { b with id := 1 }, { c with id := 2 }] =
        [{ a with id := 1 }, { c with id := 2 }] := by
  refine ⟨⟨?_, ?_, ?_⟩, ⟨?_, ?_, ?_⟩, ?_⟩
  · rw [uniqueCourses, dedupeById_eq_firstOccurrences]
    exact firstOccurrences_nodup _ _ _
  · rw [uniqueCourses, dedupeById_eq_firstOccurrences]
    exact firstOccurrences_sublist _ _ _
  · intro i
    rw [uniqueCourses, dedupeById_eq_firstOccurrences, firstOccurrences_filter]
    simp
  · rw [uniqueArticles, dedupeById_eq_firstOccurrences]
    exact firstOccurrences_nodup _ _ _
  · rw [uniqueArticles, dedupeById_eq_firstOccurrences]
    exact firstOccurrences_sublist _ _ _
  · intro i
    rw [uniqueArticles, dedupeById_eq_firstOccurrences, firstOccurrences_filter]
    simp
  · intro toLowerCase a b c
    simp [filteredArticles, uniqueArticles, dedupeById_eq_firstOccurrences, firstOccurrences]

/-! ## AgriBot -/

theorem dropWhile_eq_nil_of_all {α : Type} (p : α → Bool) (l : List α)
    (h : ∀ x ∈ l.dropWhile p, p x = true) : l.dropWhile p = [] := by
  induction l with
  | nil => rfl
  | cons a l ih =>
      by_cases ha : p a = true
      · simp only [List.dropWhile_cons, ha, if_true] at h ⊢
        exact ih h
      · have hd : (a :: l).dropWhile p = a :: l := by simp [List.dropWhile_cons, ha]
        rw [hd] at h
        exact absurd (h a (List.mem_cons_self _ _)) ha

/-- The test `!input.trim()` holds exactly for inputs made of white space only
(the empty input included). -/
theorem jsTrim_eq_empty_iff (s : String) :
    jsTrim s = "" ↔ ∀ c ∈ s.data, isJSWhiteSpace c = true := by
  have hmk : ∀ l : List Char, String.mk l = "" ↔ l = [] := by
    intro l
    constructor
    · intro h
      exact congrArg String.data h
    · intro h
      rw [h]
  unfold jsTrim
  rw [hmk, List.reverse_eq_nil_iff, List.dropWhile_eq_nil_iff]
  constructor
  · intro h
    have h' : ∀ x ∈ s.data.dropWhile isJSWhiteSpace, isJSWhiteSpace x = true :=
      fun x hx => h x (List.mem_reverse.mpr hx)
    exact List.dropWhile_eq_nil_iff.mp (dropWhile_eq_nil_of_all _ _ h')
  · intro h x hx
    rw [List.dropWhile_eq_nil_iff.mpr h] at hx
    simp at hx

/-- C10: when the input is empty or white space only, or a response is being
awaited, `handleSend` is a no-op: it changes nothing in the state (message
log, input, loading flag) and issues no chat request. -/
theorem handleSend_noop (language : Language) (now : String) (s : AgriBotState)
    (h : (∀ c ∈ s.input.data, isJSWhiteSpace c = true) ∨ s.loading = true) :
    handleSend language now s = [BotEffect.preventDefault] ∧
    s.run (handleSend language now s) = s ∧
    ∀ m u l, BotEffect.sendChatMessage m u l ∉ handleSend language now s := by
  have hguard : jsTrim s.input = "" ∨ s.loading = true :=
    h.imp (jsTrim_eq_empty_iff s.input).mpr id
  have heff : handleSend language now s = [BotEffect.preventDefault] := by
    unfold handleSend
    rw [if_pos hguard]
  refine ⟨heff, ?_, ?_⟩
  · rw [heff]
    rfl
  · intro m u l hmem
    rw [heff] at hmem
    simp at hmem

/-- Witness for C10: a white-space-only input while idle, and a real question
while a response is awaited. -/
theorem handleSend_noop_witness :
    (handleSend Language.en "t0"
        { messages := [], input := " \t ", loading := false,
          alerts := { weather := JSData.array [], pests := JSData.array [] } } = [BotEffect.preventDefault]) ∧
    (handleSend Language.ur "t0"
        { messages := [], input := "گندم", loading := true,
          alerts := { weather := JSData.array [], pests := JSData.array [] } } = [BotEffect.preventDefault]) :=
  ⟨(handleSend_noop Language.en "t0"
      { messages := [], input := " \t ", loading := false,
        alerts := { weather := JSData.array [], pests := JSData.array [] } } (Or.inl (by decide))).1,
    (handleSend_noop Language.ur "t0"
      { messages := [], input := "گندم", loading := true,
        alerts := { weather := JSData.array [], pests := JSData.array [] } } (Or.inr rfl)).1⟩

/-! ## AgriBot: sending and settling -/

/-- Past its guard, `handleSend` performs the four calls of a send. -/
theorem handleSend_of_guard_false (language : Language) (now : String) (s : AgriBotState)
    (hidle : s.loading = false) (hinput : ∃ c ∈ s.input.data, isJSWhiteSpace c = false) :
    handleSend language now s =
      [ BotEffect.preventDefault,
        BotEffect.appendMessage { type := "user", text := s.input, timestamp := now },
        BotEffect.setInput "",
        BotEffect.setLoading true,
        BotEffect.sendChatMessage s.input none language ] := by
  have hguard : ¬ (jsTrim s.input = "" ∨ s.loading = true) := by
    rintro (h | h)
    · obtain ⟨c, hc, hws⟩ := hinput
      have := (jsTrim_eq_empty_iff s.input).mp h c hc
      rw [hws] at this
      cases this
    · rw [hidle] at h
      cases h
  unfold handleSend
  rw [if_neg hguard]

/-- C11: on an idle state whose input holds a character that is not white
space, `handleSend` appends exactly one message of type `user` with the input
as text, clears the input, sets loading, and issues exactly one request: the
chat request with that input as the question. -/
theorem handleSend_sends (language : Language) (now : String) (s : AgriBotState)
    (hidle : s.loading = false) (hinput : ∃ c ∈ s.input.data, isJSWhiteSpace c = false) :
    (s.run (handleSend language now s)).messages =
      s.messages ++ [{ type := "user", text := s.input, timestamp := now }] ∧
    (s.run (handleSend language now s)).input = "" ∧
    (s.run (handleSend language now s)).loading = true ∧
    (s.run (handleSend language now s)).alerts = s.alerts ∧
    (handleSend language now s).filterMap BotEffect.request =
      [{ method := "POST", url := "/api/chat"
         body := some { user_id := JSArg.null, question := JSArg.string s.input,
                        language := JSArg.string language.code } }] := by
  rw [handleSend_of_guard_false language now s hidle hinput]
  refine ⟨rfl, rfl, rfl, rfl, rfl⟩

/-- Witness for C11: the question `wheat price?` typed on the freshly mounted
page. -/
theorem handleSend_sends_witness :
    (AgriBotState.run { AgriBotState.initial with input := "wheat price?" }
        (handleSend Language.en "t1"
          { AgriBotState.initial with input := "wheat price?" })).messages =
        [{ type := "user", text := "wheat price?", timestamp := "t1" }] ∧
    (handleSend Language.en "t1"
        { AgriBotState.initial with input := "wheat price?" }).filterMap BotEffect.request =
      [{ method := "POST", url := "/api/chat"
         body := some { user_id := JSArg.null, question := JSArg.string "wheat price?",
                        language := JSArg.string "en" } }] :=
  have h := handleSend_sends Language.en "t1"
    { AgriBotState.initial with input := "wheat price?" } rfl
    ⟨'w', by decide, by decide⟩
  ⟨h.1, h.2.2.2.2⟩

/-- C12: when the chat request resolves with a body, exactly one message of
type `bot` is appended, its text is the `answer` of the body, the earlier
messages stay in place, loading is false, and nothing is thrown. -/
theorem handleSendSettled_resolved (language : Language) (now : String) (s : AgriBotState)
    (data : ChatPayload) :
    (s.run (handleSendSettled language now (Settled.resolved (some data))).effects).messages =
      s.messages ++ [{ type := "bot", text := data.answer, timestamp := now }] ∧
    (s.run (handleSendSettled language now (Settled.resolved (some data))).effects).loading =
      false ∧
    (s.run (handleSendSettled language now (Settled.resolved (some data))).effects).input =
      s.input ∧
    (handleSendSettled language now (Settled.resolved (some data))).thrown = none := by
  refine ⟨rfl, rfl, rfl, rfl⟩

/-- C13: when the chat request rejects, whatever the error, exactly one
message of type `bot` is appended, its text is the fallback sentence of the
language (Urdu for `ur`, English otherwise), loading is false, and no
exception escapes. -/
theorem handleSendSettled_rejected (language : Language) (now : String) (s : AgriBotState)
    (error : JSError) :
    (s.run (handleSendSettled language now (Settled.rejected error)).effects).messages =
      s.messages ++ [{ type := "bot", text := fallbackText language, timestamp := now }] ∧
    (s.run (handleSendSettled language now (Settled.rejected error)).effects).loading = false ∧
    (handleSendSettled language now (Settled.rejected error)).thrown = none ∧
    fallbackText Language.ur =
      "معافی، میں اس وقت آپ کے سوال کا جواب نہیں دے سکتا۔ براہ کرم دوبارہ کوشش کریں۔" ∧
    fallbackText Language.en =
      "Sorry, I cannot answer your question right now. Please try again." := by
  refine ⟨rfl, rfl, rfl, rfl, rfl⟩

/-- C14 (amended): under a send, a chat resolution and a chat rejection the
log before is a prefix of the log after; mount and language change set the log
to the single welcome message of the language, which keeps the empty log of a
mounting page as a prefix. -/
theorem message_log_operations (language : Language) (now : String) (s : AgriBotState)
    (outcome : Settled (Option ChatPayload)) :
    s.messages <+: (s.run (handleSend language now s)).messages ∧
    s.messages <+: (s.run (handleSendSettled language now outcome).effects).messages ∧
    (s.run (languageEffect language now)).messages =
      [{ type := "bot", text := welcomeText language, timestamp := now }] ∧
    AgriBotState.initial.messages <+:
      (AgriBotState.initial.run (languageEffect language now)).messages := by
  refine ⟨?_, ?_, rfl, ?_⟩
  · unfold handleSend
    by_cases h : jsTrim s.input = "" ∨ s.loading = true
    · rw [if_pos h]
      exact List.prefix_refl _
    · rw [if_neg h]
      exact List.prefix_append _ _
  · rcases outcome with (_ | data) | error
    · exact List.prefix_append _ _
    · exact List.prefix_append _ _
    · exact List.prefix_append _ _
  · exact List.nil_prefix

/-- C14 fails as stated: a change of language to English on a conversation of
three messages leaves the English welcome message alone in the log, of which the
earlier log is not a prefix. -/
theorem language_change_resets_log :
    (urduConversation.run (languageEffect Language.en "t3")).messages =
      [{ type := "bot", text := welcomeText Language.en, timestamp := "t3" }] ∧
    ¬ urduConversation.messages <+:
      (urduConversation.run (languageEffect Language.en "t3")).messages := by
  refine ⟨rfl, ?_⟩
  intro h
  have hlen := h.length_le
  revert hlen
  decide

/-! ## Fetches settling on the pages -/

/-- C15: on Home, LearningHub, MarketIntelligence and SustainableWiki, however
the fetch settles (any body, any error) and whatever the state was, the
loading flag is false afterwards. -/
theorem fetch_clears_loading {ι : Type}
    (hub : LearningHubState ι) (courses : Settled (JSData (Course ι)))
    (wiki : WikiState ι) (articles : Settled (JSData (WikiArticle ι)))
    (market : MarketState) (prices : Settled (JSData MarketPrice))
    (home : HomeState) (alerts : Settled (JSData WeatherAlert × JSData PestAlert)) :
    (hub.run (fetchCourses courses).effects).loading = false ∧
    (wiki.run (fetchArticles articles).effects).loading = false ∧
    (market.run (fetchPrices prices).effects).loading = false ∧
    (home.run (Home.fetchAlerts alerts).effects).loading = false := by
  refine ⟨?_, ?_, ?_, ?_⟩
  · cases courses <;> rfl
  · cases articles <;> rfl
  · cases prices <;> rfl
  · have hfin : ∀ (body : Run HomeEffect) (handler : JSError → Run HomeEffect),
        (home.run (Run.tryCatchFinally body handler
          { effects := [HomeEffect.setLoading false], thrown := none }).effects).loading =
          false := by
      intro body handler
      simp [Run.tryCatchFinally, HomeState.run, List.foldl_append, HomeEffect.apply]
    exact hfin _ _

/-- C16 (amended): on LearningHub, SustainableWiki and MarketIntelligence a
rejected fetch leaves the stored list as it was, for every prior state: empty
when it was empty (as on first load), and the list of the earlier fetch
otherwise; the loading flag is false. -/
theorem rejected_fetch_keeps_list {ι : Type} (error : JSError)
    (hub : LearningHubState ι) (wiki : WikiState ι) (market : MarketState) :
    ((hub.run (fetchCourses (Settled.rejected error)).effects).courses = hub.courses ∧
      (hub.run (fetchCourses (Settled.rejected error)).effects).loading = false) ∧
    ((wiki.run (fetchArticles (Settled.rejected error)).effects).articles = wiki.articles ∧
      (wiki.run (fetchArticles (Settled.rejected error)).effects).loading = false) ∧
    ((market.run (fetchPrices (Settled.rejected error)).effects).prices = market.prices ∧
      (market.run (fetchPrices (Settled.rejected error)).effects).filteredPrices =
        market.filteredPrices ∧
      (market.run (fetchPrices (Settled.rejected error)).effects).loading = false) := by
  refine ⟨⟨rfl, rfl⟩, ⟨rfl, rfl⟩, ⟨rfl, rfl, rfl⟩⟩

/-- C16 fails as stated: on a LearningHub page that holds one course from an
earlier fetch, a rejected fetch (say of the fetch a change of language starts)
leaves that course in the list; the list is not empty afterwards. The same
holds for the article list of SustainableWiki. -/
theorem rejected_fetch_list_not_emptied :
    (LearningHubState.run { LearningHubState.initial with
        courses := JSData.array [sampleCourse], loading := false }
      (fetchCourses (Settled.rejected networkError)).effects).courses =
        JSData.array [sampleCourse] ∧
    (WikiState.run { WikiState.initial with
        articles := JSData.array [sampleArticle], loading := false }
      (fetchArticles (Settled.rejected networkError)).effects).articles =
        JSData.array [sampleArticle] ∧
    JSData.array [sampleCourse] ≠ JSData.array [] ∧
    JSData.array [sampleArticle] ≠ JSData.array [] := by
  refine ⟨rfl, rfl, ?_, ?_⟩ <;> intro h <;> cases h

/-- C17: on the Home page, when the weather request or the pest request
rejects, whatever the other one does and whatever the lists held, both lists
are empty afterwards (and loading is false, and nothing is thrown). -/
theorem home_rejection_clears_both (s : HomeState)
    (weather : Settled (JSData WeatherAlert)) (pests : Settled (JSData PestAlert))
    (secondFirst : Bool)
    (h : (∃ e, weather = Settled.rejected e) ∨ (∃ e, pests = Settled.rejected e)) :
    (s.run (Home.fetchAlerts (promiseAll weather pests secondFirst)).effects).weatherAlerts =
      JSData.array [] ∧
    (s.run (Home.fetchAlerts (promiseAll weather pests secondFirst)).effects).pestAlerts =
      JSData.array [] ∧
    (s.run (Home.fetchAlerts (promiseAll weather pests secondFirst)).effects).loading = false ∧
    (Home.fetchAlerts (promiseAll weather pests secondFirst)).thrown = none := by
  have hrej : ∃ e, promiseAll weather pests secondFirst = Settled.rejected e := by
    rcases h with ⟨e, rfl⟩ | ⟨e, rfl⟩
    · cases pests with
      | resolved v => exact ⟨e, rfl⟩
      | rejected e' => exact ⟨if secondFirst then e' else e, rfl⟩
    · cases weather with
      | resolved v => exact ⟨e, rfl⟩
      | rejected e' => exact ⟨if secondFirst then e else e', rfl⟩
  obtain ⟨e, he⟩ := hrej
  rw [he]
  refine ⟨rfl, rfl, rfl, rfl⟩

/-- Witness for C17: the pest request fails while the weather request brings
an alert, on a page that already shows one alert of each kind. -/
theorem home_rejection_clears_both_witness :
    (HomeState.run
        { weatherAlerts := JSData.array [sampleWeatherAlert]
          pestAlerts := JSData.array [samplePestAlert], loading := false }
        (Home.fetchAlerts (promiseAll
          (Settled.resolved (JSData.array [sampleWeatherAlert]))
          (Settled.rejected networkError) false)).effects).weatherAlerts = JSData.array [] ∧
    (HomeState.run
        { weatherAlerts := JSData.array [sampleWeatherAlert]
          pestAlerts := JSData.array [samplePestAlert], loading := false }
        (Home.fetchAlerts (promiseAll
          (Settled.resolved (JSData.array [sampleWeatherAlert]))
          (Settled.rejected networkError) false)).effects).pestAlerts = JSData.array [] :=
  have h := home_rejection_clears_both
    { weatherAlerts := JSData.array [sampleWeatherAlert]
      pestAlerts := JSData.array [samplePestAlert], loading := false }
    (Settled.resolved (JSData.array [sampleWeatherAlert]))
    (Settled.rejected networkError) false (Or.inr ⟨networkError, rfl⟩)
  ⟨h.1, h.2.1⟩

/-- C18, what the code does: on the AgriBot page, when the weather request or
the pest request rejects, whatever the other one does, the `catch` block only
logs and the state is left as it was, so both alert lists keep what they held
before instead of being emptied (as `fetchAlerts` of `Home.js` empties them),
and nothing is thrown. -/
theorem agribot_rejection_keeps_alerts (s : AgriBotState)
    (weather : Settled (JSData WeatherAlert)) (pests : Settled (JSData PestAlert))
    (secondFirst : Bool)
    (h : (∃ e, weather = Settled.rejected e) ∨ (∃ e, pests = Settled.rejected e)) :
    s.run (AgriBot.fetchAlerts (promiseAll weather pests secondFirst)).effects = s ∧
    (AgriBot.fetchAlerts (promiseAll weather pests secondFirst)).thrown = none := by
  have hrej : ∃ e, promiseAll weather pests secondFirst = Settled.rejected e := by
    rcases h with ⟨e, rfl⟩ | ⟨e, rfl⟩
    · cases pests with
      | resolved v => exact ⟨e, rfl⟩
      | rejected e' => exact ⟨if secondFirst then e' else e, rfl⟩
    · cases weather with
      | resolved v => exact ⟨e, rfl⟩
      | rejected e' => exact ⟨if secondFirst then e else e', rfl⟩
  obtain ⟨e, he⟩ := hrej
  rw [he]
  exact ⟨rfl, rfl⟩

/-- Witness for C18: the pest request fails while the weather request brings
nothing; the alerts shown stay. -/
theorem agribot_rejection_keeps_alerts_witness :
    botWithAlerts.run (AgriBot.fetchAlerts (promiseAll
      (Settled.resolved (JSData.array []))
      (Settled.rejected networkError) false)).effects = botWithAlerts :=
  (agribot_rejection_keeps_alerts botWithAlerts (Settled.resolved (JSData.array []))
    (Settled.rejected networkError) false (Or.inr ⟨networkError, rfl⟩)).1

/-- C18 at the failing input: on an AgriBot page that shows one alert of each
kind, a rejected pest request (the weather request resolving) leaves both
lists as they were, not empty. -/
theorem agribot_rejection_not_emptied :
    (botWithAlerts.run (AgriBot.fetchAlerts (promiseAll
      (Settled.resolved (JSData.array [sampleWeatherAlert]))
      (Settled.rejected networkError) false)).effects).alerts =
      { weather := JSData.array [sampleWeatherAlert],
        pests := JSData.array [samplePestAlert] } ∧
    JSData.array [sampleWeatherAlert] ≠ JSData.array [] ∧
    JSData.array [samplePestAlert] ≠ JSData.array [] := by
  refine ⟨rfl, ?_, ?_⟩ <;> intro h <;> cases h

/-- C19: on LearningHub, SustainableWiki and MarketIntelligence, when the
fetch resolves with a list `L` (possibly empty) the stored list is `L` itself,
same entries in the same order, and the loading flag is false; this for every
prior state. -/
theorem resolved_fetch_stores_list {ι : Type}
    (hub : LearningHubState ι) (courses : List (Course ι))
    (wiki : WikiState ι) (articles : List (WikiArticle ι))
    (market : MarketState) (prices : List MarketPrice) :
    ((hub.run (fetchCourses (Settled.resolved (JSData.array courses))).effects).courses =
        JSData.array courses ∧
      (hub.run (fetchCourses (Settled.resolved (JSData.array courses))).effects).loading =
        false) ∧
    ((wiki.run (fetchArticles (Settled.resolved (JSData.array articles))).effects).articles =
        JSData.array articles ∧
      (wiki.run (fetchArticles (Settled.resolved (JSData.array articles))).effects).loading =
        false) ∧
    ((market.run (fetchPrices (Settled.resolved (JSData.array prices))).effects).prices =
        JSData.array prices ∧
      (market.run (fetchPrices (Settled.resolved (JSData.array prices))).effects).loading =
        false) := by
  refine ⟨⟨rfl, rfl⟩, ⟨rfl, rfl⟩, ⟨rfl, rfl⟩⟩

/-! ## Query strings -/

theorem splitOnChar_of_not_mem (sep : Char) (a : List Char) (h : sep ∉ a) :
    splitOnChar sep a = [a] := by
  induction a with
  | nil => rfl
  | cons c cs ih =>
      have hc : c ≠ sep := fun e => h (e ▸ List.mem_cons_self _ _)
      have hcs : sep ∉ cs := fun e => h (List.mem_cons_of_mem _ e)
      simp [splitOnChar, hc, ih hcs]

theorem splitOnChar_append_sep (sep : Char) (a b : List Char) (h : sep ∉ a) :
    splitOnChar sep (a ++ sep :: b) = a :: splitOnChar sep b := by
  induction a with
  | nil => simp [splitOnChar]
  | cons c cs ih =>
      have hc : c ≠ sep := fun e => h (e ▸ List.mem_cons_self _ _)
      have hcs : sep ∉ cs := fun e => h (List.mem_cons_of_mem _ e)
      simp [splitOnChar, hc, ih hcs]

theorem splitOnChar_joinWith (sep : Char) (segs : List (List Char))
    (h : ∀ seg ∈ segs, sep ∉ seg) (hne : segs ≠ []) :
    splitOnChar sep (joinWith sep segs) = segs := by
  induction segs with
  | nil => exact absurd rfl hne
  | cons a rest ih =>
      cases rest with
      | nil => exact splitOnChar_of_not_mem sep a (h a (List.mem_cons_self _ _))
      | cons b rest' =>
          have ha : sep ∉ a := h a (List.mem_cons_self _ _)
          have hrest : ∀ seg ∈ b :: rest', sep ∉ seg :=
            fun seg hs => h seg (List.mem_cons_of_mem _ hs)
          show splitOnChar sep (a ++ sep :: joinWith sep (b :: rest')) = _
          rw [splitOnChar_append_sep sep a _ ha, ih hrest (List.cons_ne_nil _ _)]

theorem mem_joinWith (sep : Char) (segs : List (List Char)) (c : Char)
    (hc : c ∈ joinWith sep segs) : c = sep ∨ ∃ seg ∈ segs, c ∈ seg := by
  induction segs with
  | nil => simp [joinWith] at hc
  | cons a rest ih =>
      cases rest with
      | nil => exact Or.inr ⟨a, List.mem_cons_self _ _, hc⟩
      | cons b rest' =>
          have hc' : c ∈ a ++ sep :: joinWith sep (b :: rest') := hc
          rcases List.mem_append.mp hc' with h | h
          · exact Or.inr ⟨a, List.mem_cons_self _ _, h⟩
          · rcases List.mem_cons.mp h with h | h
            · exact Or.inl h
            · rcases ih h with h | ⟨seg, hs, hcs⟩
              · exact Or.inl h
              · exact Or.inr ⟨seg, List.mem_cons_of_mem _ hs, hcs⟩

theorem dropWhile_append_stop {α : Type} (p : α → Bool) (a b : List α) (y : α)
    (ha : ∀ x ∈ a, p x = true) (hy : p y = false) :
    (a ++ y :: b).dropWhile p = y :: b := by
  induction a with
  | nil => simp [List.dropWhile_cons, hy]
  | cons x xs ih =>
      have hx : p x = true := ha x (List.mem_cons_self _ _)
      have hxs : ∀ z ∈ xs, p z = true := fun z hz => ha z (List.mem_cons_of_mem _ hz)
      simp [List.dropWhile_cons, hx, ih hxs]

theorem takeWhile_append_stop {α : Type} (p : α → Bool) (a b : List α) (y : α)
    (ha : ∀ x ∈ a, p x = true) (hy : p y = false) :
    (a ++ y :: b).takeWhile p = a := by
  induction a with
  | nil => simp [List.takeWhile_cons, hy]
  | cons x xs ih =>
      have hx : p x = true := ha x (List.mem_cons_self _ _)
      have hxs : ∀ z ∈ xs, p z = true := fun z hz => ha z (List.mem_cons_of_mem _ hz)
      simp [List.takeWhile_cons, hx, ih hxs]

theorem takeWhile_of_all {α : Type} (p : α → Bool) (a : List α)
    (ha : ∀ x ∈ a, p x = true) : a.takeWhile p = a := by
  induction a with
  | nil => rfl
  | cons x xs ih =>
      have hx : p x = true := ha x (List.mem_cons_self _ _)
      have hxs : ∀ z ∈ xs, p z = true := fun z hz => ha z (List.mem_cons_of_mem _ hz)
      simp [List.takeWhile_cons, hx, ih hxs]

/-- No character of an encoded byte delimits a part of a query string. -/
theorem formEncodeByte_safe (b : Nat) (c : Char) (hc : c ∈ formEncodeByte b) :
    c ≠ '&' ∧ c ≠ '=' ∧ c ≠ '#' ∧ c ≠ '?' := by
  have hhex : ∀ d, d < 16 →
      hexDigit d ≠ '&' ∧ hexDigit d ≠ '=' ∧ hexDigit d ≠ '#' ∧ hexDigit d ≠ '?' := by
    decide
  have hun : ∀ n, n < 128 → isFormUnreserved n = true →
      Char.ofNat n ≠ '&' ∧ Char.ofNat n ≠ '=' ∧ Char.ofNat n ≠ '#' ∧ Char.ofNat n ≠ '?' := by
    decide
  unfold formEncodeByte at hc
  by_cases h32 : b = 32
  · rw [if_pos h32] at hc
    rw [List.mem_singleton.mp hc]
    decide
  · rw [if_neg h32] at hc
    by_cases hu : isFormUnreserved b = true
    · rw [if_pos hu] at hc
      rw [List.mem_singleton.mp hc]
      have hlt : b < 128 := by
        simp only [isFormUnreserved, Bool.or_eq_true, Bool.and_eq_true, decide_eq_true_eq,
          beq_iff_eq] at hu
        omega
      exact hun b hlt hu
    · rw [if_neg hu] at hc
      simp only [List.mem_cons, List.mem_singleton, List.not_mem_nil, or_false] at hc
      rcases hc with rfl | rfl | rfl
      · decide
      · exact hhex _ (Nat.mod_lt _ (by decide))
      · exact hhex _ (Nat.mod_lt _ (by decide))

theorem formEncode_safe (s : String) (c : Char) (hc : c ∈ formEncode s) :
    c ≠ '&' ∧ c ≠ '=' ∧ c ≠ '#' ∧ c ≠ '?' := by
  unfold formEncode at hc
  simp only [List.mem_flatMap] at hc
  obtain ⟨_, _, b, _, hb⟩ := hc
  exact formEncodeByte_safe b c hb

/-- The parameters read back from a URL whose query was written by
`URLSearchParams.toString` are the appended pairs, one parameter per pair, in
order, each name and value in its encoded form. -/
theorem queryParameters_urlSearchParams (pre : List Char) (url : String)
    (params : List (String × String)) (hpre : '?' ∉ pre)
    (hurl : url.data = pre ++ '?' :: (urlSearchParamsToString params).data) :
    queryParameters url =
      params.map fun p => (String.mk (formEncode p.1), String.mk (formEncode p.2)) := by
  have hsegsafe : ∀ seg ∈ params.map (fun p => formEncode p.1 ++ '=' :: formEncode p.2),
      '&' ∉ seg ∧ '#' ∉ seg := by
    intro seg hseg
    obtain ⟨p, _, rfl⟩ := List.mem_map.mp hseg
    constructor
    · intro hmem
      rcases List.mem_append.mp hmem with h | h
      · exact (formEncode_safe p.1 _ h).1 rfl
      · rcases List.mem_cons.mp h with h | h
        · exact absurd h (by decide)
        · exact (formEncode_safe p.2 _ h).1 rfl
    · intro hmem
      rcases List.mem_append.mp hmem with h | h
      · exact (formEncode_safe p.1 _ h).2.2.1 rfl
      · rcases List.mem_cons.mp h with h | h
        · exact absurd h (by decide)
        · exact (formEncode_safe p.2 _ h).2.2.1 rfl
  have hq : queryString url = (urlSearchParamsToString params).data := by
    unfold queryString
    rw [hurl, dropWhile_append_stop _ pre _ '?' _ (by decide)]
    · simp only [List.drop_succ_cons, List.drop_zero]
      apply takeWhile_of_all
      intro c hc
      rcases mem_joinWith '&' _ c hc with rfl | ⟨seg, hseg, hcs⟩
      · decide
      · have : c ≠ '#' := fun e => (hsegsafe seg hseg).2 (e ▸ hcs)
        simpa using this
    · intro c hc
      have : c ≠ '?' := fun e => hpre (e ▸ hc)
      simpa using this
  unfold queryParameters
  rw [hq]
  show List.map _ (List.filter _ (splitOnChar '&'
    (joinWith '&' (params.map fun p => formEncode p.1 ++ '=' :: formEncode p.2)))) = _
  cases hp : params with
  | nil => rfl
  | cons p0 rest =>
      rw [← hp, splitOnChar_joinWith '&' _ (fun seg hseg => (hsegsafe seg hseg).1)
        (by rw [hp]; simp)]
      have hfilter : (params.map fun p => formEncode p.1 ++ '=' :: formEncode p.2).filter
          (fun seg => !seg.isEmpty) =
          params.map fun p => formEncode p.1 ++ '=' :: formEncode p.2 := by
        apply List.filter_eq_self.mpr
        intro seg hseg
        obtain ⟨p, _, rfl⟩ := List.mem_map.mp hseg
        cases h : formEncode p.1 <;> simp
      rw [hfilter, List.map_map]
      apply List.map_congr_left
      intro p _
      have hname : ∀ c ∈ formEncode p.1, (c != '=') = true := by
        intro c hc
        have : c ≠ '=' := (formEncode_safe p.1 c hc).2.1
        simpa using this
      simp only [Function.comp]
      rw [takeWhile_append_stop _ _ _ '=' hname (by decide),
        dropWhile_append_stop _ _ _ '=' hname (by decide)]
      rfl

theorem JSArg.truthy_orDefault_null (a : JSArg) :
    (a.orDefault JSArg.null).truthy = a.truthy := by
  cases a <;> rfl

theorem JSArg.toString_orDefault_of_truthy (a d : JSArg) (h : a.truthy = true) :
    (a.orDefault d).toString = a.toString := by
  cases a with
  | undefined => cases h
  | null => rfl
  | string s => rfl

/-- The four functions that build their query with `URLSearchParams`: an
optional argument that is `undefined`, `null` or empty adds no parameter, a
non-empty one adds exactly one parameter under its name, holding the encoded
argument; `language` always follows as one parameter. -/
theorem optional_parameters_encoded (cropName region category language : JSArg) :
    queryParameters (apiService.getMarketPrices cropName region).url =
      (if cropName.truthy then [("crop_name", String.mk (formEncode cropName.toString))]
        else []) ++
      (if region.truthy then [("region", String.mk (formEncode region.toString))] else []) ∧
    queryParameters (apiService.getWeatherAlerts region language).url =
      (if region.truthy then [("region", String.mk (formEncode region.toString))] else []) ++
      [("language",
        String.mk (formEncode (language.orDefault (JSArg.string "ur")).toString))] ∧
    queryParameters (apiService.getPestAlerts region language).url =
      (if region.truthy then [("region", String.mk (formEncode region.toString))] else []) ++
      [("language",
        String.mk (formEncode (language.orDefault (JSArg.string "ur")).toString))] ∧
    queryParameters (apiService.getWikiArticles category language).url =
      (if category.truthy then [("category", String.mk (formEncode category.toString))]
        else []) ++
      [("language",
        String.mk (formEncode (language.orDefault (JSArg.string "ur")).toString))] := by
  have hcrop : String.mk (formEncode "crop_name") = "crop_name" := by decide
  have hregion : String.mk (formEncode "region") = "region" := by decide
  have hcategory : String.mk (formEncode "category") = "category" := by decide
  have hlanguage : String.mk (formEncode "language") = "language" := by decide
  refine ⟨?_, ?_, ?_, ?_⟩
  · rw [queryParameters_urlSearchParams "/api/market-prices".data
      (apiService.getMarketPrices cropName region).url
      (appendIfTruthy (appendIfTruthy [] "crop_name" (cropName.orDefault JSArg.null))
        "region" (region.orDefault JSArg.null)) (by decide) rfl]
    simp only [appendIfTruthy, JSArg.truthy_orDefault_null]
    by_cases hc : cropName.truthy = true <;> by_cases hr : region.truthy = true <;>
      simp [hc, hr, hcrop, hregion, JSArg.toString_orDefault_of_truthy]
  · rw [queryParameters_urlSearchParams "/api/weather-alerts".data
      (apiService.getWeatherAlerts region language).url
      (appendIfTruthy [] "region" (region.orDefault JSArg.null) ++
        [("language", (language.orDefault (JSArg.string "ur")).toString)]) (by decide) rfl]
    simp only [appendIfTruthy, JSArg.truthy_orDefault_null]
    by_cases hr : region.truthy = true <;>
      simp [hr, hregion, hlanguage, JSArg.toString_orDefault_of_truthy]
  · rw [queryParameters_urlSearchParams "/api/pest-alerts".data
      (apiService.getPestAlerts region language).url
      (appendIfTruthy [] "region" (region.orDefault JSArg.null) ++
        [("language", (language.orDefault (JSArg.string "ur")).toString)]) (by decide) rfl]
    simp only [appendIfTruthy, JSArg.truthy_orDefault_null]
    by_cases hr : region.truthy = true <;>
      simp [hr, hregion, hlanguage, JSArg.toString_orDefault_of_truthy]
  · rw [queryParameters_urlSearchParams "/api/wiki".data
      (apiService.getWikiArticles category language).url
      (appendIfTruthy [] "category" (category.orDefault JSArg.null) ++
        [("language", (language.orDefault (JSArg.string "ur")).toString)]) (by decide) rfl]
    simp only [appendIfTruthy, JSArg.truthy_orDefault_null]
    by_cases hr : category.truthy = true <;>
      simp [hr, hcategory, hlanguage, JSArg.toString_orDefault_of_truthy]

/-- C20 on `getPriceForecast`: an absent region adds no parameter and the
region `Punjab` adds the one parameter `region=Punjab`, but the region is
written into the URL as it is: `Jammu & Kashmir` is read back as the two
parameters `region=Jammu ` and ` Kashmir`, and `Punjab&region=Sindh` as two
parameters named `region`. `getMarketPrices` encodes the same argument into
one parameter. -/
theorem getPriceForecast_region_unencoded :
    queryParameters
        (apiService.getPriceForecast (JSArg.string "wheat") JSArg.undefined).url = [] ∧
    queryParameters
        (apiService.getPriceForecast (JSArg.string "wheat") JSArg.null).url = [] ∧
    queryParameters
        (apiService.getPriceForecast (JSArg.string "wheat") (JSArg.string "Punjab")).url =
      [("region", "Punjab")] ∧
    (apiService.getPriceForecast (JSArg.string "wheat") (JSArg.string "Jammu & Kashmir")).url =
      "/api/market-prices/forecast/wheat?region=Jammu & Kashmir" ∧
    queryParameters
        (apiService.getPriceForecast (JSArg.string "wheat")
          (JSArg.string "Jammu & Kashmir")).url =
      [("region", "Jammu "), (" Kashmir", "")] ∧
    queryParameters
        (apiService.getPriceForecast (JSArg.string "wheat")
          (JSArg.string "Punjab&region=Sindh")).url =
      [("region", "Punjab"), ("region", "Sindh")] ∧
    queryParameters
        (apiService.getMarketPrices JSArg.undefined (JSArg.string "Jammu & Kashmir")).url =
      [("region", "Jammu+%26+Kashmir")] := by
  decide

/-! ## The calculators: frame and independence -/

/-- C25: whenever `handleCalculate` aborts on a validation failure (area not
positive, or on the energy tool the usage, on the waste tool the amount not
positive) it raises one alert and the whole state is unchanged: the result on
display, the active tool and the inputs. -/
theorem handleCalculate_abort_frame (language : Language) (s : AgriToolsState)
    (h : (parseFloat s.calcValues.area).isPositive = false ∨
      (s.activeTool = "energy" ∧ (parseFloat s.calcValues.energyUsage).isPositive = false) ∨
      (s.activeTool = "waste" ∧ (parseFloat s.calcValues.wasteAmount).isPositive = false)) :
    (∃ message, handleCalculate language s = [ToolsEffect.alert message]) ∧
    s.run (handleCalculate language s) = s := by
  have halert : ∃ message, handleCalculate language s = [ToolsEffect.alert message] := by
    cases harea : (parseFloat s.calcValues.area).isPositive with
    | false => exact ⟨_, handleCalculate_of_area_not_pos language s harea⟩
    | true =>
        rw [handleCalculate_of_area_pos language s harea]
        rcases h with h | ⟨ht, hu⟩ | ⟨ht, hw⟩
        · rw [harea] at h
          cases h
        · have h1 : s.activeTool ≠ "water" := by rw [ht]; decide
          have h2 : s.activeTool ≠ "fertilizer" := by rw [ht]; decide
          rw [if_neg h1, if_neg h2, if_pos ht, hu]
          exact ⟨_, rfl⟩
        · have h1 : s.activeTool ≠ "water" := by rw [ht]; decide
          have h2 : s.activeTool ≠ "fertilizer" := by rw [ht]; decide
          have h3 : s.activeTool ≠ "energy" := by rw [ht]; decide
          rw [if_neg h1, if_neg h2, if_neg h3, if_pos ht, hw]
          exact ⟨_, rfl⟩
  refine ⟨halert, ?_⟩
  obtain ⟨message, hm⟩ := halert
  rw [hm]
  rfl

/-- Witness for C25: with a result on display, an empty area on the water
tool, an empty usage on the energy tool and a zero amount on the waste tool
each leave the page as it was. -/
theorem handleCalculate_abort_frame_witness :
    (pageWithResult "water" "" "" "").run
        (handleCalculate Language.en (pageWithResult "water" "" "" "")) =
      pageWithResult "water" "" "" "" ∧
    (pageWithResult "energy" "2" "" "").run
        (handleCalculate Language.en (pageWithResult "energy" "2" "" "")) =
      pageWithResult "energy" "2" "" "" ∧
    (pageWithResult "waste" "2" "" "0").run
        (handleCalculate Language.ur (pageWithResult "waste" "2" "" "0")) =
      pageWithResult "waste" "2" "" "0" :=
  ⟨(handleCalculate_abort_frame Language.en (pageWithResult "water" "" "" "")
      (Or.inl (by decide))).2,
    (handleCalculate_abort_frame Language.en (pageWithResult "energy" "2" "" "")
      (Or.inr (Or.inl ⟨by decide, by decide⟩))).2,
    (handleCalculate_abort_frame Language.ur (pageWithResult "waste" "2" "" "0")
      (Or.inr (Or.inr ⟨by decide, by decide⟩))).2⟩

/-- C26: on the energy and waste tools two positive areas give the same
effects (the same result record) when the other inputs agree; on the
fertilizer tool the value does not depend on the fertilizer type; and on no
tool do the effects depend on the soil type or the waste type. -/
theorem handleCalculate_independence (language : Language) (s : AgriToolsState)
    (area₁ area₂ : String)
    (h₁ : (parseFloat area₁).isPositive = true) (h₂ : (parseFloat area₂).isPositive = true) :
    ((s.activeTool = "energy" ∨ s.activeTool = "waste") →
      handleCalculate language { s with calcValues := { s.calcValues with area := area₁ } } =
        handleCalculate language
          { s with calcValues := { s.calcValues with area := area₂ } }) ∧
    (∀ type₁ type₂ : String, s.activeTool = "fertilizer" →
      (handleCalculate language
          { s with calcValues := { s.calcValues with fertilizerType := type₁ } }).map
          ToolsEffect.value? =
        (handleCalculate language
          { s with calcValues := { s.calcValues with fertilizerType := type₂ } }).map
          ToolsEffect.value?) ∧
    (∀ soil waste : String,
      handleCalculate language
          { s with calcValues := { s.calcValues with soilType := soil, wasteType := waste } } =
        handleCalculate language s) := by
  refine ⟨?_, ?_, ?_⟩
  · intro ht
    rw [handleCalculate_of_area_pos language _ h₁, handleCalculate_of_area_pos language _ h₂]
    rcases ht with ht | ht
    · have h1 : s.activeTool ≠ "water" := by rw [ht]; decide
      have h2 : s.activeTool ≠ "fertilizer" := by rw [ht]; decide
      simp only [if_neg h1, if_neg h2]
    · have h1 : s.activeTool ≠ "water" := by rw [ht]; decide
      have h2 : s.activeTool ≠ "fertilizer" := by rw [ht]; decide
      simp only [if_neg h1, if_neg h2]
  · intro type₁ type₂ ht
    have h1 : s.activeTool ≠ "water" := by rw [ht]; decide
    cases harea : (parseFloat s.calcValues.area).isPositive with
    | false =>
        have e₁ := handleCalculate_of_area_not_pos language
          { s with calcValues := { s.calcValues with fertilizerType := type₁ } } harea
        have e₂ := handleCalculate_of_area_not_pos language
          { s with calcValues := { s.calcValues with fertilizerType := type₂ } } harea
        rw [e₁, e₂]
    | true =>
        have e₁ := handleCalculate_of_area_pos language
          { s with calcValues := { s.calcValues with fertilizerType := type₁ } } harea
        have e₂ := handleCalculate_of_area_pos language
          { s with calcValues := { s.calcValues with fertilizerType := type₂ } } harea
        rw [e₁, e₂]
        simp only [if_neg h1, if_pos ht]
        rfl
  · intro soil waste
    rfl

/-- Witness for C26: areas 2 and 7.5 with usage 100 on the energy tool. -/
theorem handleCalculate_independence_witness :
    handleCalculate Language.en (formState "energy" "2" "" "" "100" "") =
      handleCalculate Language.en (formState "energy" "7.5" "" "" "100" "") :=
  (handleCalculate_independence Language.en (formState "energy" "" "" "" "100" "")
    "2" "7.5" (by decide) (by decide)).1 (Or.inl rfl)

/-- C27 (amended): for every positive area the water calculator gives an empty
crop type the value of `wheat` and an empty irrigation type the value of
`flood`, so with both empty the value is `area × 27000 × 0.8 × 1.5` to two
decimals, while the details name the empty selections `General` when the
language is English and `عام` when it is Urdu, not wheat or flood. -/
theorem handleCalculate_water_empty_as_default (language : Language) (s : AgriToolsState)
    (htool : s.activeTool = "water")
    (harea : (parseFloat s.calcValues.area).isPositive = true) :
    (∃ r₀ r₁ : Calculation,
      handleCalculate language { s with calcValues := { s.calcValues with cropType := "" } } =
        [ToolsEffect.setResult (some r₀)] ∧
      handleCalculate language
          { s with calcValues := { s.calcValues with cropType := "wheat" } } =
        [ToolsEffect.setResult (some r₁)] ∧
      r₀.value = r₁.value) ∧
    (∃ r₀ r₁ : Calculation,
      handleCalculate language
          { s with calcValues := { s.calcValues with irrigationType := "" } } =
        [ToolsEffect.setResult (some r₀)] ∧
      handleCalculate language
          { s with calcValues := { s.calcValues with irrigationType := "flood" } } =
        [ToolsEffect.setResult (some r₁)] ∧
      r₀.value = r₁.value) ∧
    (∃ r : Calculation,
      handleCalculate language
          { s with calcValues :=
              { s.calcValues with cropType := "", irrigationType := "" } } =
        [ToolsEffect.setResult (some r)] ∧
      r.value = ((((parseFloat s.calcValues.area).mul (JSNumber.lit 27000 1)).mul
        (JSNumber.lit 8 10)).mul (JSNumber.lit 15 10)).toFixed 2 ∧
      r.details = language.pick "فصل: عام, اریگیشن: عام"
        "Crop: General, Irrigation: General") := by
  have hc0 : cropFactor "" = cropFactor "wheat" := by decide
  have hm0 : irrigationFactor "" = irrigationFactor "flood" := by decide
  have hc : cropFactor "" = JSNumber.lit 8 10 := by decide
  have hm : irrigationFactor "" = JSNumber.lit 15 10 := by decide
  have hrun : ∀ v : CalcValues, v.area = s.calcValues.area →
      handleCalculate language { s with calcValues := v } =
        [ToolsEffect.setResult (some (waterCalculation language v (parseFloat v.area)))] := by
    intro v hv
    have hpos : (parseFloat v.area).isPositive = true := by rw [hv]; exact harea
    rw [handleCalculate_of_area_pos language { s with calcValues := v } hpos]
    exact if_pos htool
  refine ⟨⟨_, _, hrun _ rfl, hrun _ rfl, ?_⟩, ⟨_, _, hrun _ rfl, hrun _ rfl, ?_⟩,
    ⟨_, hrun _ rfl, ?_, ?_⟩⟩
  · simp only [waterCalculation, hc0]
  · simp only [waterCalculation, hm0]
  · simp only [waterCalculation, hc, hm]
  · cases language <;> rfl

/-- Witness for C27: area 1 with both selects left empty gives 32400.00 and
the details `Crop: General, Irrigation: General`. -/
theorem handleCalculate_water_empty_as_default_witness :
    (parseFloat "1").isPositive = true ∧
    ∃ r : Calculation,
      handleCalculate Language.en (formState "water" "1" "" "" "" "") =
        [ToolsEffect.setResult (some r)] ∧
      r.value = ((((parseFloat "1").mul (JSNumber.lit 27000 1)).mul
        (JSNumber.lit 8 10)).mul (JSNumber.lit 15 10)).toFixed 2 ∧
      r.details = "Crop: General, Irrigation: General" :=
  ⟨by decide,
    (handleCalculate_water_empty_as_default Language.en
      (formState "water" "1" "rice" "drip" "" "") rfl (by decide)).2.2⟩

/-- C27 fails as stated: in Urdu, the language the application starts in, the
details of the result for area 1 with both selects left empty do not hold the
word `General`. -/
theorem handleCalculate_water_details_urdu :
    handleCalculate Language.ur (formState "water" "1" "" "" "" "") =
      [ToolsEffect.setResult (some
        { label := "پانی کی ضرورت", value := "32400.00", unit := "لیٹر فی ہفتہ",
          details := "فصل: عام, اریگیشن: عام" })] ∧
    includes "فصل: عام, اریگیشن: عام" "General" = false := by
  decide

/-! ## Filters and slices -/

theorem mem_firstOccurrences_iff {α ι : Type} [DecidableEq ι] (getId : α → ι)
    (xs : List α) (c : α) :
    c ∈ firstOccurrences getId [] xs ↔
      xs.find? (fun x => decide (getId x = getId c)) = some c := by
  have hf := firstOccurrences_filter getId [] xs (getId c)
  simp only [List.not_mem_nil, if_false] at hf
  constructor
  · intro hc
    have hmem : c ∈ (firstOccurrences getId [] xs).filter
        (fun x => decide (getId x = getId c)) := by
      simp [List.mem_filter, hc]
    rw [hf] at hmem
    simpa using hmem
  · intro hfind
    have hmem : c ∈ (xs.find? (fun x => decide (getId x = getId c))).toList := by
      rw [hfind]
      simp
    rw [← hf] at hmem
    exact (List.mem_filter.mp hmem).1

/-- C28: on LearningHub the category filter works on the deduplicated list:
with filter `all` the rendered list is the deduplicated list, and in general a
course is rendered if and only if it is the first entry of the response with
its id and the filter is `all` or equals its category; so an id whose first
entry has another category is not rendered, even when a later duplicate has
the category of the filter. -/
theorem filteredCourses_after_dedup {ι : Type} [DecidableEq ι]
    (courses : List (Course ι)) (f : String) :
    filteredCourses "all" courses = uniqueCourses courses ∧
    (filteredCourses f courses).Sublist (uniqueCourses courses) ∧
    (∀ c, c ∈ filteredCourses f courses ↔
      (courses.find? (fun x => decide (x.id = c.id)) = some c ∧
        (f = "all" ∨ c.category = f))) ∧
    ∀ a b : Course Nat,
      filteredCourses "waste_management"
        [{ a with id := 1, category := "sustainable_practices" },
         { b with id := 1, category := "waste_management" }] = [] := by
  have hmem : ∀ c, c ∈ uniqueCourses courses ↔
      courses.find? (fun x => decide (x.id = c.id)) = some c := by
    intro c
    rw [uniqueCourses, dedupeById_eq_firstOccurrences]
    exact mem_firstOccurrences_iff Course.id courses c
  refine ⟨rfl, ?_, ?_, ?_⟩
  · unfold filteredCourses
    by_cases hf : f = "all"
    · rw [if_pos hf]
    · rw [if_neg hf]
      exact List.filter_sublist _
  · intro c
    unfold filteredCourses
    by_cases hf : f = "all"
    · rw [if_pos hf, hmem]
      simp [hf]
    · rw [if_neg hf, List.mem_filter, hmem]
      simp [hf]
  · intro a b
    simp [filteredCourses, uniqueCourses, dedupeById_eq_firstOccurrences, firstOccurrences]

/-- C29: for every price list, search term and region filter, `filterPrices`
yields exactly the prices, in their original order, whose crop name contains
the search term and whose region equals the region filter, both compared after
`toLowerCase`, an empty term or filter imposing nothing; with both empty it is
the full list. -/
theorem filterPrices_spec (toLowerCase : String → String) (searchTerm filterRegion : String)
    (prices : List MarketPrice) :
    filterPrices toLowerCase searchTerm filterRegion prices =
      prices.filter (fun price =>
        decide ((searchTerm = "" ∨
            includes (toLowerCase price.crop_name) (toLowerCase searchTerm) = true) ∧
          (filterRegion = "" ∨ toLowerCase price.region = toLowerCase filterRegion))) ∧
    (filterPrices toLowerCase searchTerm filterRegion prices).Sublist prices ∧
    filterPrices toLowerCase "" "" prices = prices := by
  have hspec : filterPrices toLowerCase searchTerm filterRegion prices =
      prices.filter (fun price =>
        decide ((searchTerm = "" ∨
            includes (toLowerCase price.crop_name) (toLowerCase searchTerm) = true) ∧
          (filterRegion = "" ∨ toLowerCase price.region = toLowerCase filterRegion))) := by
    unfold filterPrices
    by_cases hs : searchTerm = "" <;> by_cases hr : filterRegion = ""
    · simp [hs, hr]
    · simp [hs, hr]
    · simp [hs, hr]
    · simp only [ne_eq, hs, hr, not_false_eq_true, if_true, List.filter_filter, false_or]
      apply List.filter_congr
      intro price _
      by_cases h1 : includes (toLowerCase price.crop_name) (toLowerCase searchTerm) = true <;>
        by_cases h2 : toLowerCase price.region = toLowerCase filterRegion <;> simp [h1, h2]
  refine ⟨hspec, ?_, ?_⟩
  · rw [hspec]
    exact List.filter_sublist _
  · simp [filterPrices]

/-- C30: when both alert requests resolve with lists, Home stores the first 3
entries of each response and AgriBot the first 5, in response order: each
stored list is a prefix of its response of length `min k n`, at most `k` long,
and the response itself when that has at most `k` entries. -/
theorem alerts_sliced (home : HomeState) (bot : AgriBotState)
    (weather : List WeatherAlert) (pests : List PestAlert) (secondFirst : Bool) :
    (home.run (Home.fetchAlerts (promiseAll (Settled.resolved (JSData.array weather))
        (Settled.resolved (JSData.array pests)) secondFirst)).effects).weatherAlerts =
      JSData.array (weather.take 3) ∧
    (home.run (Home.fetchAlerts (promiseAll (Settled.resolved (JSData.array weather))
        (Settled.resolved (JSData.array pests)) secondFirst)).effects).pestAlerts =
      JSData.array (pests.take 3) ∧
    (bot.run (AgriBot.fetchAlerts (promiseAll (Settled.resolved (JSData.array weather))
        (Settled.resolved (JSData.array pests)) secondFirst)).effects).alerts =
      { weather := JSData.array (weather.take 5), pests := JSData.array (pests.take 5) } ∧
    (∀ k, weather.take k <+: weather ∧ (weather.take k).length = min k weather.length ∧
      (weather.take k).length ≤ k ∧ (weather.length ≤ k → weather.take k = weather)) ∧
    (∀ k, pests.take k <+: pests ∧ (pests.take k).length = min k pests.length ∧
      (pests.take k).length ≤ k ∧ (pests.length ≤ k → pests.take k = pests)) := by
  refine ⟨rfl, rfl, rfl, ?_, ?_⟩
  · intro k
    refine ⟨List.take_prefix _ _, List.length_take _ _, ?_, List.take_of_length_le⟩
    rw [List.length_take]
    exact Nat.min_le_left _ _
  · intro k
    refine ⟨List.take_prefix _ _, List.length_take _ _, ?_, List.take_of_length_le⟩
    rw [List.length_take]
    exact Nat.min_le_left _ _

/-! ## Requests -/

theorem formEncode_of_unreserved (s : String)
    (h : ∀ c ∈ s.data, c.toNat < 128 ∧ isFormUnreserved c.toNat = true) :
    String.mk (formEncode s) = s := by
  have hchar : ∀ c : Char, c.toNat < 128 → isFormUnreserved c.toNat = true →
      (utf8Bytes c).flatMap formEncodeByte = [c] := by
    intro c hlt hun
    have h32 : c.toNat ≠ 32 := by
      intro e
      rw [e] at hun
      exact absurd hun (by decide)
    simp [utf8Bytes, hlt, formEncodeByte, h32, hun, Char.ofNat_toNat]
  have hlist : ∀ l : List Char,
      (∀ c ∈ l, c.toNat < 128 ∧ isFormUnreserved c.toNat = true) →
      l.flatMap (fun c => (utf8Bytes c).flatMap formEncodeByte) = l := by
    intro l
    induction l with
    | nil => intro _; rfl
    | cons c cs ih =>
        intro hl
        have hc := hl c (List.mem_cons_self _ _)
        rw [List.flatMap_cons, hchar c hc.1 hc.2,
          ih (fun x hx => hl x (List.mem_cons_of_mem _ hx))]
        rfl
  unfold formEncode
  rw [hlist s.data h]

/-- C21: every call of `getWeatherAlerts`, `getPestAlerts` and
`getWikiArticles`, with or without a region or category, has exactly one
parameter named `language` in its query; its value is the language argument in
form-urlencoded writing, which is the argument itself when that is made of
letters, digits, `*`, `-`, `.`, `_` as `ur` and `en` are, and it is `ur` when
the argument is left out. -/
theorem language_parameter (region category language : JSArg) :
    (queryParameters (apiService.getWeatherAlerts region language).url).filter
        (fun p => p.1 == "language") =
      [("language",
        String.mk (formEncode (language.orDefault (JSArg.string "ur")).toString))] ∧
    (queryParameters (apiService.getPestAlerts region language).url).filter
        (fun p => p.1 == "language") =
      [("language",
        String.mk (formEncode (language.orDefault (JSArg.string "ur")).toString))] ∧
    (queryParameters (apiService.getWikiArticles category language).url).filter
        (fun p => p.1 == "language") =
      [("language",
        String.mk (formEncode (language.orDefault (JSArg.string "ur")).toString))] ∧
    String.mk (formEncode (JSArg.undefined.orDefault (JSArg.string "ur")).toString) = "ur" ∧
    (∀ s : String, (∀ c ∈ s.data, c.toNat < 128 ∧ isFormUnreserved c.toNat = true) →
      String.mk (formEncode ((JSArg.string s).orDefault (JSArg.string "ur")).toString) = s) ∧
    ∀ l : Language,
      String.mk (formEncode ((JSArg.string l.code).orDefault (JSArg.string "ur")).toString) =
        l.code := by
  obtain ⟨_, hw, hp, hk⟩ := optional_parameters_encoded JSArg.undefined region category language
  refine ⟨?_, ?_, ?_, by decide, ?_, ?_⟩
  · rw [hw]
    by_cases hr : region.truthy = true <;> simp [hr, List.filter_cons]
  · rw [hp]
    by_cases hr : region.truthy = true <;> simp [hr, List.filter_cons]
  · rw [hk]
    by_cases hr : category.truthy = true <;> simp [hr, List.filter_cons]
  · intro s hs
    exact formEncode_of_unreserved s hs
  · intro l
    cases l <;> decide

/-- C22: the requests `handleSend` issues are none when its guard holds and
otherwise the single `POST /api/chat` with body
`{user_id: null, question: input, language: language}`; they are the same for
any two states that differ in their message log (and for any clock). -/
theorem chat_request_of_input_and_language (language : Language) (now now' : String)
    (s : AgriBotState) (messages : List ChatMessage) :
    (handleSend language now s).filterMap BotEffect.request =
      (if jsTrim s.input = "" ∨ s.loading = true then []
        else
          [{ method := "POST", url := "/api/chat"
             body := some { user_id := JSArg.null, question := JSArg.string s.input,
                            language := JSArg.string language.code } }]) ∧
    (handleSend language now' { s with messages := messages }).filterMap BotEffect.request =
      (handleSend language now s).filterMap BotEffect.request := by
  have hreq : ∀ (t : String) (st : AgriBotState),
      (handleSend language t st).filterMap BotEffect.request =
        (if jsTrim st.input = "" ∨ st.loading = true then []
          else
            [{ method := "POST", url := "/api/chat"
               body := some { user_id := JSArg.null, question := JSArg.string st.input,
                              language := JSArg.string language.code } }]) := by
    intro t st
    unfold handleSend
    by_cases hg : jsTrim st.input = "" ∨ st.loading = true
    · rw [if_pos hg, if_pos hg]
      rfl
    · rw [if_neg hg, if_neg hg]
      rfl
  refine ⟨hreq now s, ?_⟩
  rw [hreq now' { s with messages := messages }, hreq now s]

/-! ## Fetches that overlap, and response bodies that are not lists -/

/-- C24: on LearningHub and SustainableWiki the continuations of fetches run
in the order the requests settle and each stores its response, whatever
language or category its request was issued for: after any settlements the
stored list is the response of the one that resolved last, so when the request
issued earlier resolves after the one issued later the earlier response stays
stored. -/
theorem last_resolved_wins {ι : Type}
    (hub : LearningHubState ι) (wiki : WikiState ι)
    (hubBefore : List (Language × Settled (JSData (Course ι))))
    (wikiBefore : List ((Language × String) × Settled (JSData (WikiArticle ι))))
    (issuedEarlier issuedLater : Language) (categoryEarlier categoryLater : String)
    (coursesEarlier coursesLater : JSData (Course ι))
    (articlesEarlier articlesLater : JSData (WikiArticle ι)) :
    (hub.settleAll [(issuedLater, Settled.resolved coursesLater),
        (issuedEarlier, Settled.resolved coursesEarlier)]).courses = coursesEarlier ∧
    (hub.settleAll (hubBefore ++ [(issuedEarlier, Settled.resolved coursesEarlier)])).courses =
      coursesEarlier ∧
    (wiki.settleAll [((issuedLater, categoryLater), Settled.resolved articlesLater),
        ((issuedEarlier, categoryEarlier), Settled.resolved articlesEarlier)]).articles =
      articlesEarlier ∧
    (wiki.settleAll
        (wikiBefore ++
          [((issuedEarlier, categoryEarlier), Settled.resolved articlesEarlier)])).articles =
      articlesEarlier := by
  refine ⟨rfl, ?_, rfl, ?_⟩
  · simp only [LearningHubState.settleAll, List.foldl_append, List.foldl_cons, List.foldl_nil]
    rfl
  · simp only [WikiState.settleAll, List.foldl_append, List.foldl_cons, List.foldl_nil]
    rfl

theorem run_tryCatchFinally_setLoading (home : HomeState) (body : Run HomeEffect)
    (handler : JSError → Run HomeEffect) :
    (home.run (Run.tryCatchFinally body handler
      { effects := [HomeEffect.setLoading false], thrown := none }).effects).loading = false := by
  simp [Run.tryCatchFinally, HomeState.run, List.foldl_append, HomeEffect.apply]

/-- The ways `fetchAlerts` of `Home.js` can end once both requests resolved,
by what `slice` does on the two normalised bodies. -/
theorem home_fetchAlerts_resolved (home : HomeState)
    (weather : JSData WeatherAlert) (pests : JSData PestAlert) :
    (Home.fetchAlerts (Settled.resolved (weather, pests))).thrown = none ∧
    (((∃ w p, (alertsData weather).slice 3 = Except.ok w ∧
          (alertsData pests).slice 3 = Except.ok p ∧
          (home.run (Home.fetchAlerts (Settled.resolved (weather, pests))).effects).weatherAlerts
            = w ∧
          (home.run (Home.fetchAlerts (Settled.resolved (weather, pests))).effects).pestAlerts
            = p)) ∨
      ((home.run (Home.fetchAlerts (Settled.resolved (weather, pests))).effects).weatherAlerts
          = JSData.array [] ∧
        (home.run (Home.fetchAlerts (Settled.resolved (weather, pests))).effects).pestAlerts
          = JSData.array [])) := by
  cases hw : (alertsData weather).slice 3 with
  | error e =>
      refine ⟨?_, Or.inr ⟨?_, ?_⟩⟩ <;>
        simp [Home.fetchAlerts, Home.fetchAlertsBody, hw, Run.tryCatchFinally, HomeState.run,
          HomeEffect.apply]
  | ok w =>
      cases hp : (alertsData pests).slice 3 with
      | error e =>
          refine ⟨?_, Or.inr ⟨?_, ?_⟩⟩ <;>
            simp [Home.fetchAlerts, Home.fetchAlertsBody, hw, hp, Run.tryCatchFinally,
              HomeState.run, HomeEffect.apply]
      | ok p =>
          refine ⟨?_, Or.inl ⟨w, p, rfl, rfl, ?_, ?_⟩⟩ <;>
            simp [Home.fetchAlerts, Home.fetchAlertsBody, hw, hp, Run.tryCatchFinally,
              HomeState.run, HomeEffect.apply]

/-- A string body is sliced by UTF-16 code units: the first five units of
`a😀😀bc` are `a` and the two surrogate pairs, and the first two units of `a😀`
end with the first half of the pair. -/
theorem slice_text_code_units :
    (JSData.ofString "a😀😀bc" : JSData WeatherAlert).slice 5 =
      Except.ok (JSData.ofString "a😀😀") ∧
    (JSData.ofString "a😀" : JSData WeatherAlert).slice 2 =
      Except.ok (JSData.text [0x61, 0xD83D]) :=
  ⟨rfl, rfl⟩

/-- On Home a body that normalises to the empty list leaves the weather list
empty, whatever the other body is. -/
theorem home_weatherAlerts_empty (home : HomeState)
    (weather : JSData WeatherAlert) (pests : JSData PestAlert)
    (hw : alertsData weather = JSData.array []) :
    (home.run (Home.fetchAlerts (Settled.resolved (weather, pests))).effects).weatherAlerts
      = JSData.array [] := by
  rcases (home_fetchAlerts_resolved home weather pests).2 with ⟨w, p, hsw, _, hrw, _⟩ | h
  · rw [hrw]
    rw [hw] at hsw
    cases hsw
    rfl
  · exact h.1

/-- On Home a body that normalises to the empty list leaves the pest list
empty, whatever the other body is. -/
theorem home_pestAlerts_empty (home : HomeState)
    (weather : JSData WeatherAlert) (pests : JSData PestAlert)
    (hp : alertsData pests = JSData.array []) :
    (home.run (Home.fetchAlerts (Settled.resolved (weather, pests))).effects).pestAlerts
      = JSData.array [] := by
  rcases (home_fetchAlerts_resolved home weather pests).2 with ⟨w, p, _, hsp, _, hrp⟩ | h
  · rw [hrp]
    rw [hp] at hsp
    cases hsp
    rfl
  · exact h.2

/-- On Home, when `slice` throws on either normalised body, the `catch` block
empties both lists. -/
theorem home_fetchAlerts_slice_throws (home : HomeState)
    (weather : JSData WeatherAlert) (pests : JSData PestAlert)
    (h : (∃ e, (alertsData weather).slice 3 = Except.error e) ∨
      (∃ e, (alertsData pests).slice 3 = Except.error e)) :
    (home.run (Home.fetchAlerts (Settled.resolved (weather, pests))).effects).weatherAlerts
      = JSData.array [] ∧
    (home.run (Home.fetchAlerts (Settled.resolved (weather, pests))).effects).pestAlerts
      = JSData.array [] := by
  rcases (home_fetchAlerts_resolved home weather pests).2 with ⟨w, p, hsw, hsp, _, _⟩ | h'
  · rcases h with ⟨e, he⟩ | ⟨e, he⟩
    · rw [he] at hsw
      cases hsw
    · rw [he] at hsp
      cases hsp
  · exact h'

/-- C23 (amended): whatever the body of the response, list or not, no
exception escapes a fetch handler, and Home, LearningHub, MarketIntelligence
and SustainableWiki end non-loading. On Home a body that is null, a string, a
number, a boolean or an object whose `data` is missing or falsy is handled
like a failed fetch of that list: the list is empty afterwards. A body that is
an object carrying a list in `data` is unwrapped instead: when each of the two
bodies is a list or such an object, Home stores the first three entries of
each list. When either body is an object whose `data` is a truthy number,
`true` or an object, both Home lists are empty afterwards. -/
theorem non_list_payload {ι : Type}
    (hub : LearningHubState ι) (courses : JSData (Course ι))
    (wiki : WikiState ι) (articles : JSData (WikiArticle ι))
    (market : MarketState) (prices : JSData MarketPrice)
    (home : HomeState)
    (weather : JSData WeatherAlert) (pests : JSData PestAlert) :
    ((fetchCourses (Settled.resolved courses)).thrown = none ∧
      (hub.run (fetchCourses (Settled.resolved courses)).effects).loading = false) ∧
    ((fetchArticles (Settled.resolved articles)).thrown = none ∧
      (wiki.run (fetchArticles (Settled.resolved articles)).effects).loading = false) ∧
    ((fetchPrices (Settled.resolved prices)).thrown = none ∧
      (market.run (fetchPrices (Settled.resolved prices)).effects).loading = false) ∧
    ((Home.fetchAlerts (Settled.resolved (weather, pests))).thrown = none ∧
      (home.run (Home.fetchAlerts (Settled.resolved (weather, pests))).effects).loading =
        false) ∧
    (AgriBot.fetchAlerts (Settled.resolved (weather, pests))).thrown = none ∧
    (∀ (t : List Nat) (b : Bool) (d : JSData WeatherAlert), d.truthy = false →
      ∀ w ∈ [JSData.nullish, JSData.text t, JSData.scalar b, JSData.object d],
        (home.run (Home.fetchAlerts (Settled.resolved (w, pests))).effects).weatherAlerts
          = JSData.array []) ∧
    (∀ (t : List Nat) (b : Bool) (d : JSData PestAlert), d.truthy = false →
      ∀ p ∈ [JSData.nullish, JSData.text t, JSData.scalar b, JSData.object d],
        (home.run (Home.fetchAlerts (Settled.resolved (weather, p))).effects).pestAlerts
          = JSData.array []) ∧
    (∀ (ws : List WeatherAlert) (ps : List PestAlert),
      ∀ w ∈ [JSData.array ws, JSData.object (JSData.array ws)],
      ∀ p ∈ [JSData.array ps, JSData.object (JSData.array ps)],
        (home.run (Home.fetchAlerts (Settled.resolved (w, p))).effects).weatherAlerts =
          JSData.array (ws.take 3) ∧
        (home.run (Home.fetchAlerts (Settled.resolved (w, p))).effects).pestAlerts =
          JSData.array (ps.take 3)) ∧
    (∀ d : JSData WeatherAlert,
      ∀ w ∈ [JSData.object (JSData.scalar true), JSData.object (JSData.object d)],
        (home.run (Home.fetchAlerts (Settled.resolved (w, pests))).effects).weatherAlerts =
          JSData.array [] ∧
        (home.run (Home.fetchAlerts (Settled.resolved (w, pests))).effects).pestAlerts =
          JSData.array []) ∧
    (∀ d : JSData PestAlert,
      ∀ p ∈ [JSData.object (JSData.scalar true), JSData.object (JSData.object d)],
        (home.run (Home.fetchAlerts (Settled.resolved (weather, p))).effects).weatherAlerts =
          JSData.array [] ∧
        (home.run (Home.fetchAlerts (Settled.resolved (weather, p))).effects).pestAlerts =
          JSData.array []) := by
  refine ⟨⟨rfl, rfl⟩, ⟨rfl, rfl⟩, ⟨rfl, rfl⟩, ⟨?_, ?_⟩, ?_, ?_, ?_, ?_, ?_, ?_⟩
  · exact (home_fetchAlerts_resolved home weather pests).1
  · exact run_tryCatchFinally_setLoading home _ _
  · cases weather <;> cases pests <;> rfl
  · intro t b d hd w hw
    apply home_weatherAlerts_empty
    simp only [List.mem_cons, List.mem_singleton, List.not_mem_nil, or_false] at hw
    rcases hw with rfl | rfl | rfl | rfl
    · rfl
    · rfl
    · rfl
    · simp [alertsData, hd]
  · intro t b d hd p hp
    apply home_pestAlerts_empty
    simp only [List.mem_cons, List.mem_singleton, List.not_mem_nil, or_false] at hp
    rcases hp with rfl | rfl | rfl | rfl
    · rfl
    · rfl
    · rfl
    · simp [alertsData, hd]
  · intro ws ps w hw p hp
    simp only [List.mem_cons, List.mem_singleton, List.not_mem_nil, or_false] at hw hp
    rcases hw with rfl | rfl <;> rcases hp with rfl | rfl <;> exact ⟨rfl, rfl⟩
  · intro d w hw
    apply home_fetchAlerts_slice_throws
    simp only [List.mem_cons, List.mem_singleton, List.not_mem_nil, or_false] at hw
    rcases hw with rfl | rfl <;> exact Or.inl ⟨_, rfl⟩
  · intro d p hp
    apply home_fetchAlerts_slice_throws
    simp only [List.mem_cons, List.mem_singleton, List.not_mem_nil, or_false] at hp
    rcases hp with rfl | rfl <;> exact Or.inr ⟨_, rfl⟩

/-- C23 fails as stated: on Home a body that wraps a list in `data` leaves the
entries of that list stored, not the empty list; on LearningHub a response
whose body is an object that is not a list leaves a stored value that is not
the empty list, and computing the rendered list from it throws. -/
theorem non_list_payload_not_like_failure :
    (HomeState.initial.run
        (Home.fetchAlerts (Settled.resolved
          (JSData.object (JSData.array [sampleWeatherAlert]), JSData.array []))).effects
      ).weatherAlerts = JSData.array [sampleWeatherAlert] ∧
    JSData.array [sampleWeatherAlert] ≠ JSData.array [] ∧
    ((LearningHubState.initial : LearningHubState Nat).run
        (fetchCourses (Settled.resolved (JSData.object JSData.nullish))).effects).courses =
      JSData.object JSData.nullish ∧
    (JSData.object JSData.nullish : JSData (Course Nat)) ≠ JSData.array [] ∧
    ((LearningHubState.initial : LearningHubState Nat).run
        (fetchCourses (Settled.resolved (JSData.object JSData.nullish))).effects).renderedCourses
      = Except.error { name := "TypeError", message := "courses.filter is not a function" } := by
  refine ⟨rfl, ?_, rfl, ?_, rfl⟩ <;> intro h <;> cases h

end KisaanAcademy
